import Mathlib

/-!
Verification development for the CarePilot agent core: a shallow embedding of
the action lifecycle service, the agent executor, the policy engine, the hook
pipeline, the consent token service and the temporal lifecycle sweep
(`backend/carepilot_agent_core/*.py`, `backend/memory/service.py`,
`backend/memory/temporal_lifecycle.py`, and the hook wiring in
`backend/main.py`), together with theorems settling the stated behavioural
properties of those components.

Modelling conventions:
* Machine state (SQLite tables) is modelled as lists of records; every service
  function threads the state explicitly.
* Wall-clock timestamps are integers (seconds); ISO round-tripping through
  `to_iso`/`parse_iso` is order- and value-preserving, so a timestamp column is
  just a `Time`.
* SHA-256 is modelled as an injective tagging of its input string
  (`sha256hex`); only equality of hash inputs matters for the properties here.
* JSON payloads are association lists of string keys and scalar values, the
  shape every call site in the repository uses for the fields the core reads.
-/

namespace CarePilot

/-- Scalar JSON values appearing in request payloads and results. -/
inductive JVal where
  | str (s : String)
  | num (n : Int)
  | bool (b : Bool)
  | null
deriving DecidableEq, Repr

/-- A Python dict as used for tool payloads: an association list keyed by
strings.  Python dicts have unique keys; all payloads built below do. -/
abbrev Payload := List (String × JVal)

/-- `payload.get(k)`: the value stored under `k`, if any. -/
def pget : Payload → String → Option JVal
  | [], _ => none
  | kv :: rest, k => if kv.1 = k then some kv.2 else pget rest k

/-- `payload.get(k)` restricted to string values (every call site in the
repository stores strings under the keys the core reads). -/
def pgetStr (p : Payload) (k : String) : Option String :=
  match pget p k with
  | some (JVal.str s) => some s
  | _ => none

/-- Python truthiness of `payload.get(k)`. -/
def truthy : Option JVal → Bool
  | none => false
  | some (JVal.str s) => !(s == "")
  | some (JVal.num n) => !(n == 0)
  | some (JVal.bool b) => b
  | some JVal.null => false

/-- Python `str(...)` of a scalar value. -/
def pyStr : JVal → String
  | JVal.str s => s
  | JVal.num n => toString n
  | JVal.bool b => if b then "True" else "False"
  | JVal.null => "None"

/-- `d[k] = v` on a Python dict: replace in place if the key exists, else
append (insertion order is preserved by CPython dicts). -/
def dictSet (p : Payload) (k : String) (v : JVal) : Payload :=
  if (p.find? (fun kv => kv.1 == k)).isSome then
    p.map (fun kv => if kv.1 == k then (k, v) else kv)
  else p ++ [(k, v)]

/-- JSON encoding of a scalar (payload strings in this system contain no JSON
metacharacters, so no escaping is modelled). -/
def JVal.encode : JVal → String
  | JVal.str s => "\"" ++ s ++ "\""
  | JVal.num n => toString n
  | JVal.bool b => if b then "true" else "false"
  | JVal.null => "null"

/-- Lexicographic code-point comparison on character lists (the order
`json.dumps(..., sort_keys=True)` sorts keys by). -/
def charsLe : List Char → List Char → Bool
  | [], _ => true
  | _ :: _, [] => false
  | a :: as, b :: bs =>
    if a.toNat < b.toNat then true
    else if b.toNat < a.toNat then false
    else charsLe as bs

/-- Lexicographic order on strings. -/
def strLe (a b : String) : Bool := charsLe a.data b.data

/-- Insertion into a key-sorted association list. -/
def insertByKey (kv : String × JVal) : Payload → Payload
  | [] => [kv]
  | x :: xs => if strLe kv.1 x.1 then kv :: x :: xs else x :: insertByKey kv xs

/-- Sort an association list by key, as `json.dumps(..., sort_keys=True)`
does. -/
def sortByKey : Payload → Payload
  | [] => []
  | kv :: rest => insertByKey kv (sortByKey rest)

/-- Join strings with a separator. -/
def joinWith (sep : String) : List String → String
  | [] => ""
  | [x] => x
  | x :: xs => x ++ sep ++ joinWith sep xs

/-- `json.dumps(payload, sort_keys=True, separators=(",", ":"))`: the
canonical serialization with stable key ordering. -/
def canonicalJson (p : Payload) : String :=
  "\x7b" ++ joinWith ","
      ((sortByKey p).map (fun kv => "\"" ++ kv.1 ++ "\":" ++ kv.2.encode))
    ++ "\x7d"

/-- SHA-256 hex digest, modelled as an injective tag of the input: the
development only ever compares hashes of equal or distinct inputs. -/
def sha256hex (s : String) : String := "sha256:" ++ s

/-- `canonical_payload_hash` from `memory/service.py`: hash of the canonical
serialization of the payload exactly as given. -/
def canonical_payload_hash (p : Payload) : String :=
  sha256hex (canonicalJson p)

/-- `_sanitize_payload_for_hash` from `backend/main.py`: drop the
`consent_token` and `payload_hash` keys. -/
def sanitize_payload_for_hash (p : Payload) : Payload :=
  p.filter (fun kv => !(kv.1 == "consent_token") && !(kv.1 == "payload_hash"))

/-- `_tool_params_hash` from `backend/main.py`: canonical hash of the
sanitized payload. -/
def tool_params_hash (p : Payload) : String :=
  canonical_payload_hash (sanitize_payload_for_hash p)

/-- Wall-clock time in seconds. -/
abbrev Time := Int

/-! ## Consent token service (`memory/service.py`, `memory/clinical_store.py`) -/

/-- A row of the `consent_tokens` table (the columns
`MemoryService.validate_consent_token` reads). -/
structure ConsentTokenRow where
  token : String
  user_id : String
  action_type : String
  payload_hash : String
  issued_at : Time
  expires_at : Time
  used_at : Option Time
deriving DecidableEq, Repr

abbrev ConsentStore := List ConsentTokenRow

/-- `ClinicalStore.get_consent_token`: `SELECT ... WHERE token = ?`. -/
def get_consent_token : ConsentStore → String → Option ConsentTokenRow
  | [], _ => none
  | r :: rest, t => if r.token = t then some r else get_consent_token rest t

/-- `ClinicalStore.mark_consent_token_used`: stamp `used_at` (and refresh the
row's update time) on the matching token row. -/
def mark_consent_token_used : ConsentStore → String → Time → ConsentStore
  | [], _, _ => []
  | r :: rest, t, now =>
    (if r.token = t then { r with used_at := some now } else r) ::
      mark_consent_token_used rest t now

/-- TTL clamp in `MemoryService.issue_consent_token`:
`max(30, min(3600, int(expires_in_seconds)))`. -/
def clampTtl (requested : Int) : Int := max 30 (min 3600 requested)

/-- `MemoryService.issue_consent_token` followed by
`ClinicalStore.issue_consent_token`: persist a fresh unused token row.
`freshTok` stands for the generated `ctk_<uuid4>` token. -/
def issue_consent_token (toks : ConsentStore) (now : Time)
    (user_id action_type payload_hash : String) (expires_in_seconds : Int)
    (freshTok : String) : ConsentStore :=
  toks ++ [{ token := freshTok, user_id := user_id, action_type := action_type,
             payload_hash := payload_hash, issued_at := now,
             expires_at := now + clampTtl expires_in_seconds, used_at := none }]

/-- `MemoryService.validate_consent_token`: fail closed with a specific
reason, in the source's check order; on success with `consume=true` mark the
token used.  Returns the `(ok, reason)` pair and the (possibly updated)
store. -/
def validate_consent_token (toks : ConsentStore) (now : Time)
    (user_id action_type payload_hash token : String) (consume : Bool) :
    (Bool × String) × ConsentStore :=
  match get_consent_token toks token with
  | none => ((false, "Consent token not found."), toks)
  | some row =>
    if row.user_id ≠ user_id then
      ((false, "Consent token does not match user."), toks)
    else if row.action_type ≠ action_type then
      ((false, "Consent token does not match action."), toks)
    else if row.payload_hash ≠ payload_hash then
      ((false, "Consent token payload mismatch."), toks)
    else if row.used_at.isSome then
      ((false, "Consent token already used."), toks)
    else if row.expires_at ≤ now then
      ((false, "Consent token expired."), toks)
    else if consume then
      ((true, "ok"), mark_consent_token_used toks token now)
    else
      ((true, "ok"), toks)

/-! ## Action lifecycle service (`carepilot_agent_core/lifecycle.py`) -/

/-- A row of the `action_audit` table. -/
structure ActionRow where
  id : String
  user_id : String
  session_key : String
  action_type : String
  payload_hash : String
  payload_blob : String
  idempotency_key : String
  replay_window_bucket : Int
  consent_token : Option String
  consent_token_present : Bool
  status : String
  lifecycle : List String
  result_json : Option Payload
  error_code : Option String
  error_message : Option String
  started_at : Time
  finished_at : Option Time
  created_at : Time
  updated_at : Time
deriving DecidableEq, Repr

abbrev AuditStore := List ActionRow

/-- The `ActionRecord` dataclass returned by `ActionLifecycleService.start`. -/
structure ActionRecord where
  action_id : String
  status : String
  lifecycle : List String
  result_json : Option Payload
  replayed : Bool
deriving DecidableEq, Repr

/-- Lookup on the unique key `(user_id, idempotency_key, replay_window_bucket)`
(the `UNIQUE` constraint of `action_audit`). -/
def findByKey : AuditStore → String → String → Int → Option ActionRow
  | [], _, _, _ => none
  | r :: rest, u, k, b =>
    if r.user_id = u ∧ r.idempotency_key = k ∧ r.replay_window_bucket = b then some r
    else findByKey rest u k b

/-- Lookup by primary key `id`. -/
def findById : AuditStore → String → Option ActionRow
  | [], _ => none
  | r :: rest, id => if r.id = id then some r else findById rest id

/-- `UPDATE action_audit ... WHERE id = ?` (id is the primary key). -/
def replaceById : AuditStore → String → ActionRow → AuditStore
  | [], _, _ => []
  | r :: rest, id, row => (if r.id = id then row else r) :: replaceById rest id row

/-- `ActionLifecycleService._replay_bucket`: a coarse deterministic bucket of
wall-clock time, at hour granularity (`now.strftime("%Y-%m-%dT%H")`). -/
def replayBucket (now : Time) : Int := now / 3600

/-- `ActionLifecycleService._TRANSITIONS`: the allowed-next table; unlisted
statuses (and all terminal statuses) map to the empty set, matching
`.get(current, set())`. -/
def TRANSITIONS (current : String) : List String :=
  if current = "planned" then ["awaiting_confirmation", "executing", "blocked", "failed"]
  else if current = "awaiting_confirmation" then ["executing", "expired", "blocked", "failed"]
  else if current = "executing" then ["succeeded", "failed", "partial", "blocked", "expired", "pending"]
  else if current = "pending" then ["succeeded", "failed", "partial", "blocked", "expired"]
  else []

/-- The terminal statuses as enumerated in `lifecycle.py`'s `transition`
(`finished_at` stamping) and `executor.py`'s replay check. -/
def TERMINAL_STATUSES : List String :=
  ["succeeded", "failed", "partial", "blocked", "expired"]

def isTerminalStatus (s : String) : Bool := TERMINAL_STATUSES.contains s

/-- The fresh row inserted by `ActionLifecycleService.start`: initial state
`planned`, `lifecycle=["planned"]`, null result/error/finished_at.
`consent_snapshot_json` records `bool(consent_token)`. -/
def newActionRow (now : Time) (freshId user_id session_key action_type payload_hash : String)
    (payload : Payload) (idempotency_key : String) (consent_token : Option String) : ActionRow :=
  { id := freshId, user_id := user_id, session_key := session_key,
    action_type := action_type, payload_hash := payload_hash,
    payload_blob := canonicalJson payload, idempotency_key := idempotency_key,
    replay_window_bucket := replayBucket now, consent_token := consent_token,
    consent_token_present := (match consent_token with | some s => !(s == "") | none => false),
    status := "planned", lifecycle := ["planned"], result_json := none,
    error_code := none, error_message := none,
    started_at := now, finished_at := none, created_at := now, updated_at := now }

/-- `ActionLifecycleService.start`.  The source INSERTs and treats a
uniqueness violation as the replay path (SELECT the existing row back, return
it flagged `replayed=True`, no mutation); sequentially that is exactly:
if a row with the same `(user_id, idempotency_key, bucket)` exists, return it
replayed, else insert the fresh `planned` row. -/
def lifecycleStart (store : AuditStore) (now : Time) (freshId : String)
    (user_id session_key action_type payload_hash : String) (payload : Payload)
    (idempotency_key : String) (consent_token : Option String) :
    ActionRecord × AuditStore :=
  match findByKey store user_id idempotency_key (replayBucket now) with
  | some row =>
    ({ action_id := row.id, status := row.status, lifecycle := row.lifecycle,
       result_json := row.result_json, replayed := true }, store)
  | none =>
    ({ action_id := freshId, status := "planned", lifecycle := ["planned"],
       result_json := none, replayed := false },
     store ++ [newActionRow now freshId user_id session_key action_type payload_hash
                 payload idempotency_key consent_token])

/-- The row update performed by `ActionLifecycleService.transition` once the
target state is validated: append to `lifecycle`, set `status`, COALESCE-merge
result and error fields (never overwrite with null), stamp `finished_at` only
on terminal states, refresh `updated_at`. -/
def applyTransitionRow (now : Time) (r : ActionRow) (next : String)
    (result : Option Payload) (error_code error_message : Option String) : ActionRow :=
  { r with
    status := next,
    lifecycle := r.lifecycle ++ [next],
    result_json := (match result with | some v => some v | none => r.result_json),
    error_code := (match error_code with | some v => some v | none => r.error_code),
    error_message := (match error_message with | some v => some v | none => r.error_message),
    finished_at := (if isTerminalStatus next then some now else r.finished_at),
    updated_at := now }

/-- The per-row core of `transition`: validate the target against
`_TRANSITIONS` and either produce the updated row or a `LifecycleError`
(the error is raised before any write). -/
def rowTransition (now : Time) (r : ActionRow) (next : String)
    (result : Option Payload) (error_code error_message : Option String) :
    Except String ActionRow :=
  if next ∈ TRANSITIONS r.status then
    Except.ok (applyTransitionRow now r next result error_code error_message)
  else
    Except.error ("Invalid transition: " ++ r.status ++ " -> " ++ next)

/-- `ActionLifecycleService.transition`: load the row, validate, persist the
single-row update, return the new lifecycle; on `LifecycleError` (missing
action or illegal transition) the store is untouched. -/
def lifecycleTransition (store : AuditStore) (now : Time) (action_id next_state : String)
    (result : Option Payload) (error_code error_message : Option String) :
    Except String (List String) × AuditStore :=
  match findById store action_id with
  | none => (Except.error ("Action not found: " ++ action_id), store)
  | some row =>
    match rowTransition now row next_state result error_code error_message with
    | Except.ok row' => (Except.ok row'.lifecycle, replaceById store action_id row')
    | Except.error e => (Except.error e, store)

/-! ## Policy engine (`carepilot_agent_core/policy.py`) -/

/-- Caller-supplied execution context (`carepilot_agent_core/models.py`). -/
structure ExecutionContext where
  user_id : String
  session_key : String
  request_id : String
  message_text : String := ""
  emergency : Bool := false
  user_confirmed : Bool := false
deriving DecidableEq, Repr

/-- An entry of a result `errors` list (a dict with optional `code` and
`message` keys). -/
structure ErrDetail where
  code : Option String := none
  message : Option String := none
deriving DecidableEq, Repr

/-- The dict a tool handler may return: optional `status`, `data`, `errors`
keys (`registry.py` `ToolHandler` contract as consumed by the executor). -/
structure ToolOutput where
  status? : Option String := none
  data? : Option Payload := none
  errors? : Option (List ErrDetail) := none

/-- A tool handler outcome: either a raised exception or a returned dict. -/
inductive HandlerOut where
  | raises (message : String)
  | returns (out : ToolOutput)

/-- `ToolDefinition` from `carepilot_agent_core/registry.py`. -/
structure ToolDefinition where
  name : String
  handler : ExecutionContext → Payload → HandlerOut
  transactional : Bool := false

/-- `PolicyDecision` from `carepilot_agent_core/policy.py`. -/
structure PolicyDecision where
  allowed : Bool
  code : String
  message : String
deriving DecidableEq, Repr

/-- `PolicyEngine` configuration. -/
structure PolicyEngine where
  allowlist : List String
  transactional_tools : List String
deriving DecidableEq, Repr

/-- `PolicyEngine.evaluate`: allow-list check, then emergency-transactional
block, then cross-user block, first failure wins. -/
def PolicyEngine.evaluate (pe : PolicyEngine) (ctx : ExecutionContext)
    (tool : ToolDefinition) (payload : Payload) : PolicyDecision :=
  if !(pe.allowlist.contains tool.name) then
    { allowed := false, code := "allowlist_denied",
      message := "Tool '" ++ tool.name ++ "' is not allowlisted." }
  else if pe.transactional_tools.contains tool.name && ctx.emergency then
    { allowed := false, code := "emergency_transaction_block",
      message := "Transactional actions are blocked in an emergency context." }
  else if truthy (pget payload "target_user_id")
       && !(pget payload "target_user_id" == some (JVal.str ctx.user_id)) then
    { allowed := false, code := "cross_user_block",
      message := "Cross-user target is blocked." }
  else
    { allowed := true, code := "ok", message := "allowed" }

/-! ## Hook pipeline (`carepilot_agent_core/hooks.py`)

Hooks read and write external state (the consent token store, the policy
event log); the state type `σ` is a parameter.  A post-hook may raise, which
in the source propagates out of `run_after` (there is no per-hook
isolation); on a raise the state reached so far is kept (SQLite writes made
by earlier hooks persist). -/

/-- `HookDecision` from `hooks.py`. -/
structure HookDecision where
  allowed : Bool
  code : String := "ok"
  message : String := "allowed"
deriving DecidableEq, Repr

abbrev BeforeHook (σ : Type) :=
  ExecutionContext → ToolDefinition → Payload → σ → HookDecision

/-- The outcome dict the executor passes to `run_after`. -/
structure HookOutcome where
  status : String
  data : Payload
  errors : List ErrDetail
  lifecycle : List String
deriving DecidableEq, Repr

abbrev AfterHook (σ : Type) :=
  ExecutionContext → ToolDefinition → Payload → HookOutcome → σ → Except String σ

/-- `HookRunner.run_before`: first not-allowed decision short-circuits. -/
def run_before {σ : Type} (hooks : List (BeforeHook σ)) (ctx : ExecutionContext)
    (tool : ToolDefinition) (payload : Payload) (s : σ) : HookDecision :=
  match hooks with
  | [] => { allowed := true }
  | h :: rest =>
    let decision := h ctx tool payload s
    if decision.allowed then run_before rest ctx tool payload s else decision

/-- `HookRunner.run_after`: invoke each post-hook in registration order.  A
raised exception propagates immediately (`for hook in self._after_hooks:
hook(...)` has no try/except), so the remaining hooks are not invoked; the
state produced by the hooks that did complete is kept. -/
def run_after {σ : Type} (hooks : List (AfterHook σ)) (ctx : ExecutionContext)
    (tool : ToolDefinition) (payload : Payload) (outcome : HookOutcome) (s : σ) :
    Except String Unit × σ :=
  match hooks with
  | [] => (Except.ok (), s)
  | h :: rest =>
    match h ctx tool payload outcome s with
    | Except.error e => (Except.error e, s)
    | Except.ok s' => run_after rest ctx tool payload outcome s'

/-! ## Agent executor (`carepilot_agent_core/executor.py`)

`executeFn` follows `AgentExecutor.execute` line by line.  It returns the
result (or a propagated non-`LifecycleError` exception as `Except.error`),
the final machine state, and a `Trace` instrumenting which collaborators were
invoked: `policyCalls` counts `self.policy.evaluate` calls, `beforeRuns` /
`afterRuns` count `run_before` / `run_after` invocations, `handlerCalls`
counts tool handler invocations, and `transitionCalls` lists the target
states of every `self.lifecycle.transition` call, in order. -/

/-- `ToolExecutionResult` from `carepilot_agent_core/models.py`. -/
structure ToolExecutionResult where
  status : String
  data : Payload := []
  errors : List ErrDetail := []
  lifecycle : List String := []
  action_id : Option String := none
deriving DecidableEq, Repr

/-- Instrumentation of one `execute` call (not part of the source state; it
records which collaborators were invoked). -/
structure Trace where
  policyCalls : Nat := 0
  beforeRuns : Nat := 0
  handlerCalls : Nat := 0
  afterRuns : Nat := 0
  transitionCalls : List String := []
deriving DecidableEq, Repr

/-- The executor's durable state: the action audit ledger plus whatever state
the registered hooks act on. -/
structure ExecState (σ : Type) where
  audit : AuditStore
  hookState : σ

abbrev ExecOut (σ : Type) := Except String ToolExecutionResult × ExecState σ × Trace

/-- `_default_idempotency_key` from `executor.py`. -/
def default_idempotency_key (user_id action_type : String) (payload : Payload)
    (session_key : String) : String :=
  sha256hex (user_id ++ ":" ++ action_type ++ ":" ++ canonical_payload_hash payload
    ++ ":" ++ session_key)

/-- `payload.get("idempotency_key") or _default_idempotency_key(...)`:
a truthy (non-empty) caller-supplied key wins, else the derived key. -/
def computeIdemKey (ctx : ExecutionContext) (toolName : String) (payload : Payload) : String :=
  match pgetStr payload "idempotency_key" with
  | some s =>
    if s = "" then default_idempotency_key ctx.user_id toolName payload ctx.session_key else s
  | none => default_idempotency_key ctx.user_id toolName payload ctx.session_key

/-- `payload.get("consent_token")` as passed to `lifecycle.start`. -/
def consentTokenField (p : Payload) : Option String := pgetStr p "consent_token"

/-- The `lifecycle.start(...)` call made by `execute`: note the
`payload_hash` argument is `canonical_payload_hash(payload)` of the payload
exactly as received — the executor performs no sanitization. -/
def startForExecute {σ : Type} (st : ExecState σ) (ctx : ExecutionContext)
    (tool : ToolDefinition) (payload : Payload) (now : Time) (freshId : String) :
    ActionRecord × AuditStore :=
  lifecycleStart st.audit now freshId ctx.user_id ctx.session_key tool.name
    (canonical_payload_hash payload) payload (computeIdemKey ctx tool.name payload)
    (consentTokenField payload)

/-- The `except LifecycleError` conversion at the bottom of `execute`: a
`failed` result carrying the lifecycle as last observed. -/
def lifecycleErrorResult (msg : String) (lc : List String) (actionId : String) :
    ToolExecutionResult :=
  { status := "failed", data := [],
    errors := [{ code := some "lifecycle_error", message := some msg }],
    lifecycle := lc, action_id := some actionId }

/-- The result-state set accepted from a handler in `execute`; anything else
normalizes to `succeeded`. -/
def RESULT_STATES : List String :=
  ["succeeded", "failed", "partial", "blocked", "expired", "pending"]

/-- `result_state = tool_output.get("status", "succeeded")` plus the
normalization to the fixed status set. -/
def normalizeResultState (s? : Option String) : String :=
  match s? with
  | some s => if RESULT_STATES.contains s then s else "succeeded"
  | none => "succeeded"

/-- The executor's error-code extraction: the first error's code when the
handler's errors list is truthy, else null. -/
def toolErrorCode (out : ToolOutput) : Option String :=
  match out.errors? with
  | some (e :: _) => e.code
  | some [] => none
  | none => none

/-- Same as `toolErrorCode` for the message field. -/
def toolErrorMessage (out : ToolOutput) : Option String :=
  match out.errors? with
  | some (e :: _) => e.message
  | some [] => none
  | none => none

/-- `execute` from the policy evaluation onward (source lines 79-162):
policy, pre-hooks, the guarded transition to `executing`, the handler
invocation with its exception boundary, the result transition, and the
post-hooks.  `currentState` and `lc` are the `current_state` / `lifecycle`
local variables at this point. -/
def execFromPolicy {σ : Type} (pe : PolicyEngine) (beforeHooks : List (BeforeHook σ))
    (afterHooks : List (AfterHook σ)) (tool : ToolDefinition) (ctx : ExecutionContext)
    (payload : Payload) (now : Time) (actionId : String) (currentState : String)
    (lc : List String) (audit : AuditStore) (hs : σ) (tr : Trace) : ExecOut σ :=
  let decision := pe.evaluate ctx tool payload
  let tr := { tr with policyCalls := tr.policyCalls + 1 }
  if !decision.allowed then
    let next := if currentState = "planned" ∨ currentState = "awaiting_confirmation"
      then "blocked" else "failed"
    let tr := { tr with transitionCalls := tr.transitionCalls ++ [next] }
    match lifecycleTransition audit now actionId next none none none with
    | (Except.error e, audit') =>
      (Except.ok (lifecycleErrorResult e lc actionId), ⟨audit', hs⟩, tr)
    | (Except.ok lc', audit') =>
      (Except.ok { status := next, data := [],
                   errors := [{ code := some decision.code, message := some decision.message }],
                   lifecycle := lc', action_id := some actionId }, ⟨audit', hs⟩, tr)
  else
    let hookDecision := run_before beforeHooks ctx tool payload hs
    let tr := { tr with beforeRuns := tr.beforeRuns + 1 }
    if !hookDecision.allowed then
      let next := if currentState = "planned" ∨ currentState = "awaiting_confirmation"
        then "blocked" else "failed"
      let tr := { tr with transitionCalls := tr.transitionCalls ++ [next] }
      match lifecycleTransition audit now actionId next none none none with
      | (Except.error e, audit') =>
        (Except.ok (lifecycleErrorResult e lc actionId), ⟨audit', hs⟩, tr)
      | (Except.ok lc', audit') =>
        let outcome : HookOutcome :=
          { status := next, data := [],
            errors := [{ code := some hookDecision.code, message := some hookDecision.message }],
            lifecycle := lc' }
        let tr := { tr with afterRuns := tr.afterRuns + 1 }
        match run_after afterHooks ctx tool payload outcome hs with
        | (Except.error e, hs') => (Except.error e, ⟨audit', hs'⟩, tr)
        | (Except.ok _, hs') =>
          (Except.ok { status := next, data := [], errors := outcome.errors,
                       lifecycle := lc', action_id := some actionId }, ⟨audit', hs'⟩, tr)
    else
      let pre : Except String (List String) × AuditStore × Trace :=
        if currentState = "planned" ∨ currentState = "awaiting_confirmation" then
          let t := lifecycleTransition audit now actionId "executing" none none none
          (t.1, t.2, { tr with transitionCalls := tr.transitionCalls ++ ["executing"] })
        else (Except.ok lc, audit, tr)
      match pre with
      | (Except.error e, audit', tr') =>
        (Except.ok (lifecycleErrorResult e lc actionId), ⟨audit', hs⟩, tr')
      | (Except.ok lcE, auditE, trE) =>
        let trE := { trE with handlerCalls := trE.handlerCalls + 1 }
        match tool.handler ctx payload with
        | HandlerOut.raises msg =>
          let trE := { trE with transitionCalls := trE.transitionCalls ++ ["failed"] }
          match lifecycleTransition auditE now actionId "failed" none
              (some "tool_exception") (some msg) with
          | (Except.error e, audit') =>
            (Except.ok (lifecycleErrorResult e lcE actionId), ⟨audit', hs⟩, trE)
          | (Except.ok lc', audit') =>
            let outcome : HookOutcome :=
              { status := "failed", data := [],
                errors := [{ code := some "tool_exception", message := some msg }],
                lifecycle := lc' }
            let trE := { trE with afterRuns := trE.afterRuns + 1 }
            match run_after afterHooks ctx tool payload outcome hs with
            | (Except.error e, hs') => (Except.error e, ⟨audit', hs'⟩, trE)
            | (Except.ok _, hs') =>
              (Except.ok { status := "failed", data := [], errors := outcome.errors,
                           lifecycle := lc', action_id := some actionId }, ⟨audit', hs'⟩, trE)
        | HandlerOut.returns out =>
          let result_state := normalizeResultState out.status?
          let trE := { trE with transitionCalls := trE.transitionCalls ++ [result_state] }
          match lifecycleTransition auditE now actionId result_state out.data?
              (toolErrorCode out) (toolErrorMessage out) with
          | (Except.error e, audit') =>
            (Except.ok (lifecycleErrorResult e lcE actionId), ⟨audit', hs⟩, trE)
          | (Except.ok lc', audit') =>
            let outcome : HookOutcome :=
              { status := result_state, data := out.data?.getD [],
                errors := out.errors?.getD [], lifecycle := lc' }
            let trE := { trE with afterRuns := trE.afterRuns + 1 }
            match run_after afterHooks ctx tool payload outcome hs with
            | (Except.error e, hs') => (Except.error e, ⟨audit', hs'⟩, trE)
            | (Except.ok _, hs') =>
              (Except.ok { status := result_state, data := outcome.data,
                           errors := outcome.errors, lifecycle := lc',
                           action_id := some actionId }, ⟨audit', hs'⟩, trE)

/-- `AgentExecutor.execute` for a resolved tool: start (with dedup/replay),
the terminal-replay short-circuit, the transactional confirmation gate, then
`execFromPolicy`.  `freshId` stands for the generated `uuid4` action id. -/
def executeFn {σ : Type} (pe : PolicyEngine) (beforeHooks : List (BeforeHook σ))
    (afterHooks : List (AfterHook σ)) (tool : ToolDefinition) (ctx : ExecutionContext)
    (payload : Payload) (now : Time) (freshId : String) (st : ExecState σ) : ExecOut σ :=
  let idempotency_key := computeIdemKey ctx tool.name payload
  let started := startForExecute st ctx tool payload now freshId
  let action := started.1
  let audit0 := started.2
  if action.replayed && isTerminalStatus action.status then
    (Except.ok { status := action.status,
                 data := dictSet (dictSet (action.result_json.getD []) "replayed" (JVal.bool true))
                   "idempotency_key" (JVal.str idempotency_key),
                 errors := [], lifecycle := action.lifecycle,
                 action_id := some action.action_id },
     ⟨audit0, st.hookState⟩, {})
  else if tool.transactional then
    let tr : Trace := { transitionCalls := ["awaiting_confirmation"] }
    match lifecycleTransition audit0 now action.action_id "awaiting_confirmation" none none none with
    | (Except.error e, audit1) =>
      (Except.ok (lifecycleErrorResult e action.lifecycle action.action_id),
       ⟨audit1, st.hookState⟩, tr)
    | (Except.ok lc1, audit1) =>
      if !ctx.user_confirmed then
        let tr := { tr with transitionCalls := tr.transitionCalls ++ ["blocked"] }
        match lifecycleTransition audit1 now action.action_id "blocked" none none none with
        | (Except.error e, audit2) =>
          (Except.ok (lifecycleErrorResult e lc1 action.action_id), ⟨audit2, st.hookState⟩, tr)
        | (Except.ok lc2, audit2) =>
          (Except.ok { status := "blocked", data := [],
                       errors := [{ code := some "not_confirmed",
                                    message := some "User confirmation required." }],
                       lifecycle := lc2, action_id := some action.action_id },
           ⟨audit2, st.hookState⟩, tr)
      else
        execFromPolicy pe beforeHooks afterHooks tool ctx payload now action.action_id
          "awaiting_confirmation" lc1 audit1 st.hookState tr
  else
    execFromPolicy pe beforeHooks afterHooks tool ctx payload now action.action_id
      action.status action.lifecycle audit0 st.hookState {}

/-! ## Hook wiring (`backend/main.py`, `CarePilotApp`) -/

/-- A row appended by `ClinicalStore.append_policy_event` from
`_after_tool_call` (the audit-trail side of the post-hook). -/
structure PolicyEvent where
  user_id : String
  session_key : String
  event_type : String
  tool_name : String
  outcome_status : String
  outcome_errors : List ErrDetail
  outcome_action_id : Option String
deriving DecidableEq, Repr

/-- The external state the CarePilot hooks act on: the consent token table
and the policy event log. -/
structure CarePilotState where
  tokens : ConsentStore
  events : List PolicyEvent
deriving DecidableEq, Repr

/-- `CarePilotApp.transactional_tools`. -/
def TRANSACTIONAL_TOOLS : List String :=
  ["appointment_book", "medical_purchase", "medication_refill_request"]

/-- `CarePilotApp._before_tool_call`: for transactional tools, the emergency
block, the missing-token check, the supplied-hash consistency check against
the sanitized hash, and read-only consent validation (`consume=False`). -/
def before_tool_call (now : Time) : BeforeHook CarePilotState :=
  fun ctx tool payload s =>
    if TRANSACTIONAL_TOOLS.contains tool.name then
      if ctx.emergency then
        { allowed := false, code := "emergency_transaction_block",
          message := "Emergency context blocks transactional actions." }
      else
        let payload_hash := tool_params_hash payload
        match pgetStr payload "consent_token" with
        | none =>
          { allowed := false, code := "missing_consent_token",
            message := "Consent token required for transactional action." }
        | some token =>
          if token = "" then
            { allowed := false, code := "missing_consent_token",
              message := "Consent token required for transactional action." }
          else
            let supplied? : Option JVal :=
              match pget payload "payload_hash" with
              | some JVal.null => none
              | v => v
            let validated : HookDecision :=
              let vr := (validate_consent_token s.tokens now ctx.user_id tool.name
                payload_hash token false).1
              if vr.1 then { allowed := true }
              else { allowed := false, code := "invalid_consent_token", message := vr.2 }
            match supplied? with
            | some supplied =>
              if pyStr supplied ≠ payload_hash then
                { allowed := false, code := "invalid_consent_token",
                  message := "Consent payload hash mismatch." }
              else validated
            | none => validated
    else { allowed := true }

/-- `CarePilotApp._after_tool_call`: always append a `tool_outcome` policy
event; for a transactional tool whose outcome status is `succeeded` or
`partial` and whose payload carries a truthy consent token, mark that token
used.  This hook never raises. -/
def after_tool_call (now : Time) : AfterHook CarePilotState :=
  fun ctx tool payload outcome s =>
    let s1 : CarePilotState :=
      { s with events := s.events ++
          [{ user_id := ctx.user_id, session_key := ctx.session_key,
             event_type := "tool_outcome", tool_name := tool.name,
             outcome_status := outcome.status, outcome_errors := outcome.errors,
             outcome_action_id := none }] }
    if TRANSACTIONAL_TOOLS.contains tool.name
        && (outcome.status == "succeeded" || outcome.status == "partial") then
      match pgetStr payload "consent_token" with
      | some tok =>
        if tok = "" then Except.ok s1
        else Except.ok { s1 with tokens := mark_consent_token_used s1.tokens tok now }
      | none => Except.ok s1
    else Except.ok s1

/-! ## Temporal lifecycle service (`memory/temporal_lifecycle.py`) -/

/-- A row of `symptom_states` (the columns the sweep touches). -/
structure SymptomRow where
  id : String
  user_id : String
  status : String
  last_confirmed_at : Option Time
  reconfirm_due_at : Option Time
  updated_at : Time
deriving DecidableEq, Repr

/-- A row of `inferences` (the columns the sweep touches). -/
structure InferenceRow where
  id : String
  user_id : String
  status : String
  expires_at : Time
  updated_at : Time
deriving DecidableEq, Repr

/-- A row of `health_signals` (the columns the sweep touches). -/
structure HealthSignalRow where
  id : String
  user_id : String
  stale : Bool
  stale_after : Time
  updated_at : Time
deriving DecidableEq, Repr

/-- The memory database slice the temporal sweep reads and writes. -/
structure MemDB where
  symptoms : List SymptomRow
  inferences : List InferenceRow
  signals : List HealthSignalRow
deriving DecidableEq, Repr

/-- `TemporalLifecycleService.RECONFIRM_HOURS`, in seconds. -/
def RECONFIRM_SECONDS : Int := 48 * 3600

/-- `TemporalLifecycleService.AUTO_RESOLVE_DAYS`, in seconds. -/
def AUTO_RESOLVE_SECONDS : Int := 7 * 86400

/-- The symptom branch of `TemporalLifecycleService.apply` for one row:
auto-resolve active rows past the 7-day threshold, else stamp
`reconfirm_due_at` on active rows past the 48-hour threshold.  Returns the
updated row, whether it was counted as resolved, and its id if it was added
to `reconfirm_due`. -/
def sweepSymptomRow (now : Time) (user_id : String) (r : SymptomRow) :
    SymptomRow × Bool × Option String :=
  if r.user_id ≠ user_id then (r, false, none)
  else
    match r.last_confirmed_at with
    | none => (r, false, none)
    | some last =>
      let elapsed := now - last
      if r.status = "active" ∧ AUTO_RESOLVE_SECONDS ≤ elapsed then
        ({ r with status := "resolved_unconfirmed", updated_at := now }, true, none)
      else if r.status = "active" ∧ RECONFIRM_SECONDS ≤ elapsed then
        ({ r with reconfirm_due_at := some now, updated_at := now }, false, some r.id)
      else (r, false, none)

/-- The inference branch of `apply` for one row: `UPDATE inferences SET
status='expired' WHERE user_id=? AND status='active' AND expires_at <= ?`.
Returns the updated row and whether it was counted. -/
def sweepInferenceRow (now : Time) (user_id : String) (r : InferenceRow) :
    InferenceRow × Bool :=
  if r.user_id = user_id ∧ r.status = "active" ∧ r.expires_at ≤ now then
    ({ r with status := "expired", updated_at := now }, true)
  else (r, false)

/-- The health-signal branch of `apply` for one row: `UPDATE health_signals
SET stale=1 WHERE user_id=? AND stale=0 AND stale_after <= ?`. -/
def sweepSignalRow (now : Time) (user_id : String) (r : HealthSignalRow) :
    HealthSignalRow × Bool :=
  if r.user_id = user_id ∧ r.stale = false ∧ r.stale_after ≤ now then
    ({ r with stale := true, updated_at := now }, true)
  else (r, false)

/-- The `TemporalResult` dataclass. -/
structure TemporalResult where
  reconfirm_due_ids : List String
  resolved_unconfirmed_count : Nat
  inference_expired_count : Nat
  stale_health_signal_count : Nat
deriving DecidableEq, Repr

/-- `TemporalLifecycleService.apply`: the three sweeps over the user's rows,
with the returned summary. -/
def temporalApply (db : MemDB) (now : Time) (user_id : String) :
    TemporalResult × MemDB :=
  let symResults := db.symptoms.map (sweepSymptomRow now user_id)
  let infResults := db.inferences.map (sweepInferenceRow now user_id)
  let sigResults := db.signals.map (sweepSignalRow now user_id)
  ({ reconfirm_due_ids := symResults.filterMap (fun x => x.2.2),
     resolved_unconfirmed_count := symResults.countP (fun x => x.2.1),
     inference_expired_count := infResults.countP (fun x => x.2),
     stale_health_signal_count := sigResults.countP (fun x => x.2) },
   { symptoms := symResults.map (fun x => x.1),
     inferences := infResults.map (fun x => x.1),
     signals := sigResults.map (fun x => x.1) })

/-! ## Store lemmas -/

theorem findById_append_fresh (store : AuditStore) (row : ActionRow) (id : String)
    (hid : row.id = id) (hfresh : ∀ r ∈ store, r.id ≠ id) :
    findById (store ++ [row]) id = some row := by
  induction store with
  | nil => simp [findById, hid]
  | cons a rest ih =>
    have ha : a.id ≠ id := hfresh a (by simp)
    simp only [List.cons_append, findById, if_neg ha]
    exact ih (fun r hr => hfresh r (by simp [hr]))

theorem findById_replaceById (store : AuditStore) (id : String) (r row' : ActionRow)
    (h : findById store id = some r) (hid : row'.id = id) :
    findById (replaceById store id row') id = some row' := by
  induction store with
  | nil => simp [findById] at h
  | cons a rest ih =>
    by_cases ha : a.id = id
    · simp [findById, replaceById, ha, hid]
    · simp only [findById, replaceById, if_neg ha] at h ⊢
      exact ih h

theorem applyTransitionRow_id (now : Time) (r : ActionRow) (next : String)
    (result : Option Payload) (ec em : Option String) :
    (applyTransitionRow now r next result ec em).id = r.id := rfl

theorem applyTransitionRow_payload_hash (now : Time) (r : ActionRow) (next : String)
    (result : Option Payload) (ec em : Option String) :
    (applyTransitionRow now r next result ec em).payload_hash = r.payload_hash := rfl

/-- A `transition` call whose target is allowed: the updated row replaces the
old one and the extended lifecycle is returned. -/
theorem lifecycleTransition_ok (store : AuditStore) (now : Time) (id next : String)
    (res : Option Payload) (ec em : Option String) (row : ActionRow)
    (hfind : findById store id = some row) (hmem : next ∈ TRANSITIONS row.status) :
    lifecycleTransition store now id next res ec em =
      (Except.ok (row.lifecycle ++ [next]),
       replaceById store id (applyTransitionRow now row next res ec em)) := by
  unfold lifecycleTransition rowTransition
  rw [hfind]
  simp [hmem, applyTransitionRow]

/-! ## C2: the transition table is enforced exactly -/

/-- C2.  For every pair allowed by the transition table, `transition` succeeds
and the record's lifecycle gains exactly one element, equal to the target
state (the updated row's status becomes that state, the store holds exactly
that single-row update); for every pair not in the table, `transition` raises
`LifecycleError` and returns the store — hence the record's status,
lifecycle, result, error fields and timestamps — completely unchanged. -/
theorem transition_table_complete (store : AuditStore) (now : Time)
    (id next : String) (res : Option Payload) (ec em : Option String) (r : ActionRow)
    (h : findById store id = some r) :
    (next ∈ TRANSITIONS r.status →
      lifecycleTransition store now id next res ec em =
        (Except.ok (r.lifecycle ++ [next]),
         replaceById store id (applyTransitionRow now r next res ec em)) ∧
      (applyTransitionRow now r next res ec em).lifecycle = r.lifecycle ++ [next] ∧
      (applyTransitionRow now r next res ec em).status = next) ∧
    (next ∉ TRANSITIONS r.status →
      lifecycleTransition store now id next res ec em =
        (Except.error ("Invalid transition: " ++ r.status ++ " -> " ++ next), store)) := by
  constructor
  · intro hmem
    refine ⟨?_, rfl, rfl⟩
    unfold lifecycleTransition rowTransition
    rw [h]
    simp [hmem, applyTransitionRow]
  · intro hmem
    unfold lifecycleTransition rowTransition
    rw [h]
    simp [hmem]

/-- Witness for C2 at a concrete record: from `planned`, `executing` is
accepted and appended, `succeeded` is rejected with the store untouched. -/
theorem transition_table_complete_witness :
    (let row0 : ActionRow :=
      { id := "a1", user_id := "u1", session_key := "s1", action_type := "t",
        payload_hash := "h", payload_blob := "b", idempotency_key := "k",
        replay_window_bucket := 0, consent_token := none, consent_token_present := false,
        status := "planned", lifecycle := ["planned"], result_json := none,
        error_code := none, error_message := none, started_at := 0,
        finished_at := none, created_at := 0, updated_at := 0 }
    (lifecycleTransition [row0] 5 "a1" "executing" none none none).1 =
        Except.ok ["planned", "executing"] ∧
      lifecycleTransition [row0] 5 "a1" "succeeded" none none none =
        (Except.error "Invalid transition: planned -> succeeded", [row0])) := by
  intro row0
  constructor
  · have h := (transition_table_complete [row0] 5 "a1" "executing" none none none row0
      (by rfl)).1 (by decide)
    rw [h.1]
    rfl
  · exact (transition_table_complete [row0] 5 "a1" "succeeded" none none none row0
      (by rfl)).2 (by decide)

/-! ## C3: lifecycle invariant -/

/-- The action-record invariant: the lifecycle log is non-empty, `status`
equals its last element, and `finished_at` is set iff the status is
terminal. -/
def recordInvariant (r : ActionRow) : Prop :=
  r.lifecycle ≠ [] ∧ r.lifecycle.getLast? = some r.status ∧
    (r.finished_at.isSome = true ↔ isTerminalStatus r.status = true)

/-- The arguments of one `transition(...)` call. -/
structure TransitionRequest where
  now : Time
  next_state : String
  result : Option Payload := none
  error_code : Option String := none
  error_message : Option String := none

/-- A sequence of `transition` calls against one record; a call that raises
`LifecycleError` leaves the record unchanged (the error is raised before the
update is written). -/
def runRowTransitions (r : ActionRow) : List TransitionRequest → ActionRow
  | [] => r
  | req :: rest =>
    match rowTransition req.now r req.next_state req.result req.error_code req.error_message with
    | Except.ok r' => runRowTransitions r' rest
    | Except.error _ => runRowTransitions r rest

/-- A status with any allowed exit is non-terminal: the transition table maps
every terminal status to the empty set. -/
theorem transitions_nonterminal {s next : String} (h : next ∈ TRANSITIONS s) :
    isTerminalStatus s = false := by
  unfold TRANSITIONS at h
  split_ifs at h with h1 h2 h3 h4
  · subst h1; rfl
  · subst h2; rfl
  · subst h3; rfl
  · subst h4; rfl
  · simp at h

/-- A successful `transition` preserves the record invariant and appends
exactly the target state to the lifecycle. -/
theorem rowTransition_invariant {now : Time} {r r' : ActionRow} {next : String}
    {res : Option Payload} {ec em : Option String}
    (hinv : recordInvariant r)
    (h : rowTransition now r next res ec em = Except.ok r') :
    recordInvariant r' ∧ r'.lifecycle = r.lifecycle ++ [next] := by
  unfold rowTransition at h
  by_cases hmem : next ∈ TRANSITIONS r.status
  · rw [if_pos hmem] at h
    injection h with h
    subst h
    have hterm := transitions_nonterminal hmem
    refine ⟨⟨by simp [applyTransitionRow], ?_, ?_⟩, by simp [applyTransitionRow]⟩
    · simp [applyTransitionRow, List.getLast?_concat]
    · have hfin : r.finished_at.isSome = false := by
        cases hf : r.finished_at.isSome
        · rfl
        · exact absurd (hterm ▸ hinv.2.2.mp hf) (by simp)
      by_cases ht : isTerminalStatus next = true
      · simp [applyTransitionRow, ht]
      · simp only [Bool.not_eq_true] at ht
        simp [applyTransitionRow, ht, hfin]
  · rw [if_neg hmem] at h
    cases h

/-- Invariant preservation over any sequence of transition calls. -/
theorem runRowTransitions_invariant (reqs : List TransitionRequest) (r : ActionRow)
    (hinv : recordInvariant r) :
    recordInvariant (runRowTransitions r reqs) ∧
      ∃ suffix, (runRowTransitions r reqs).lifecycle = r.lifecycle ++ suffix := by
  induction reqs generalizing r with
  | nil => exact ⟨hinv, [], by simp [runRowTransitions]⟩
  | cons req rest ih =>
    unfold runRowTransitions
    cases hstep : rowTransition req.now r req.next_state req.result req.error_code
        req.error_message with
    | ok r' =>
      obtain ⟨hinv', hl⟩ := rowTransition_invariant hinv hstep
      obtain ⟨hi, suffix, hs⟩ := ih r' hinv'
      exact ⟨hi, [req.next_state] ++ suffix, by rw [hs, hl, List.append_assoc]⟩
    | error e => exact ih r hinv

/-- C3.  For every record produced by `start` and every sequence of
transition calls on it, the lifecycle list is only ever appended to (the
initial lifecycle remains a prefix), the status always equals the last
lifecycle element, and `finished_at` is set iff the status is terminal. -/
theorem lifecycle_record_invariant (now : Time)
    (freshId user_id session_key action_type payload_hash : String)
    (payload : Payload) (idempotency_key : String) (consent_token : Option String)
    (reqs : List TransitionRequest) :
    recordInvariant (runRowTransitions
      (newActionRow now freshId user_id session_key action_type payload_hash payload
        idempotency_key consent_token) reqs) ∧
    ∃ suffix,
      (runRowTransitions
        (newActionRow now freshId user_id session_key action_type payload_hash payload
          idempotency_key consent_token) reqs).lifecycle =
      (newActionRow now freshId user_id session_key action_type payload_hash payload
        idempotency_key consent_token).lifecycle ++ suffix := by
  apply runRowTransitions_invariant
  refine ⟨by simp [newActionRow], by simp [newActionRow], ?_⟩
  simp only [newActionRow]
  constructor
  · intro h
    simp at h
  · intro h
    simp [isTerminalStatus, TERMINAL_STATUSES] at h

/-! ## C4: consent validation fails closed with distinct reasons -/

/-- A freshly issued token is found by lookup (token values are unguessable
`ctk_<uuid4>` strings, fresh by construction). -/
theorem get_consent_token_issue_fresh (toks : ConsentStore) (now : Time)
    (u a h1 : String) (ttl : Int) (tok : String)
    (hfresh : ∀ r ∈ toks, r.token ≠ tok) :
    get_consent_token (issue_consent_token toks now u a h1 ttl tok) tok =
      some { token := tok, user_id := u, action_type := a, payload_hash := h1,
             issued_at := now, expires_at := now + clampTtl ttl, used_at := none } := by
  unfold issue_consent_token
  induction toks with
  | nil => simp [get_consent_token]
  | cons r rest ih =>
    have hr : r.token ≠ tok := hfresh r (by simp)
    simp only [List.cons_append, get_consent_token, if_neg hr]
    exact ih (fun x hx => hfresh x (by simp [hx]))

/-- C4.  A token issued for payload hash H1 fails validation with the
payload-mismatch reason against any other hash H2, even when user and action
type match; and validation fails closed with a distinct reason for each of:
token not found, user mismatch, action-type mismatch, payload-hash mismatch,
already used, and expired. -/
theorem consent_validation_fails_closed :
    (∀ (toks : ConsentStore) (now now2 : Time) (u a h1 h2 : String) (ttl : Int)
        (tok : String) (c : Bool),
      (∀ r ∈ toks, r.token ≠ tok) → h2 ≠ h1 →
      (validate_consent_token (issue_consent_token toks now u a h1 ttl tok) now2 u a h2 tok c).1
        = (false, "Consent token payload mismatch.")) ∧
    (∀ (toks : ConsentStore) (now : Time) (u a h tok : String) (c : Bool),
      get_consent_token toks tok = none →
      (validate_consent_token toks now u a h tok c).1 = (false, "Consent token not found.")) ∧
    (∀ (toks : ConsentStore) (now : Time) (u a h tok : String) (c : Bool) (row : ConsentTokenRow),
      get_consent_token toks tok = some row → row.user_id ≠ u →
      (validate_consent_token toks now u a h tok c).1 =
        (false, "Consent token does not match user.")) ∧
    (∀ (toks : ConsentStore) (now : Time) (u a h tok : String) (c : Bool) (row : ConsentTokenRow),
      get_consent_token toks tok = some row → row.user_id = u → row.action_type ≠ a →
      (validate_consent_token toks now u a h tok c).1 =
        (false, "Consent token does not match action.")) ∧
    (∀ (toks : ConsentStore) (now : Time) (u a h tok : String) (c : Bool) (row : ConsentTokenRow),
      get_consent_token toks tok = some row → row.user_id = u → row.action_type = a →
      row.payload_hash ≠ h →
      (validate_consent_token toks now u a h tok c).1 =
        (false, "Consent token payload mismatch.")) ∧
    (∀ (toks : ConsentStore) (now : Time) (u a h tok : String) (c : Bool)
        (row : ConsentTokenRow) (t0 : Time),
      get_consent_token toks tok = some row → row.user_id = u → row.action_type = a →
      row.payload_hash = h → row.used_at = some t0 →
      (validate_consent_token toks now u a h tok c).1 =
        (false, "Consent token already used.")) ∧
    (∀ (toks : ConsentStore) (now : Time) (u a h tok : String) (c : Bool) (row : ConsentTokenRow),
      get_consent_token toks tok = some row → row.user_id = u → row.action_type = a →
      row.payload_hash = h → row.used_at = none → row.expires_at ≤ now →
      (validate_consent_token toks now u a h tok c).1 = (false, "Consent token expired.")) ∧
    List.Pairwise (fun x y => x ≠ y)
      ["Consent token not found.", "Consent token does not match user.",
       "Consent token does not match action.", "Consent token payload mismatch.",
       "Consent token already used.", "Consent token expired."] := by
  refine ⟨?_, ?_, ?_, ?_, ?_, ?_, ?_, by decide⟩
  · intro toks now now2 u a h1 h2 ttl tok c hfresh hne
    unfold validate_consent_token
    rw [get_consent_token_issue_fresh toks now u a h1 ttl tok hfresh]
    simp [Ne.symm hne]
  · intro toks now u a h tok c hget
    unfold validate_consent_token
    rw [hget]
  · intro toks now u a h tok c row hget hu
    unfold validate_consent_token
    rw [hget]
    simp [hu]
  · intro toks now u a h tok c row hget hu ha
    unfold validate_consent_token
    rw [hget]
    simp [hu, ha]
  · intro toks now u a h tok c row hget hu ha hp
    unfold validate_consent_token
    rw [hget]
    simp [hu, ha, hp]
  · intro toks now u a h tok c row t0 hget hu ha hp hused
    unfold validate_consent_token
    rw [hget]
    simp [hu, ha, hp, hused]
  · intro toks now u a h tok c row hget hu ha hp hused hexp
    unfold validate_consent_token
    rw [hget]
    simp [hu, ha, hp, hused, hexp]

/-- Witness for C4: a token issued for hash `H1` is rejected with the
payload-mismatch reason when presented with hash `H2`. -/
theorem consent_validation_fails_closed_witness :
    (validate_consent_token (issue_consent_token [] 0 "u1" "appointment_book" "H1" 300 "t1")
      5 "u1" "appointment_book" "H2" "t1" false).1 =
      (false, "Consent token payload mismatch.") :=
  consent_validation_fails_closed.1 [] 0 5 "u1" "appointment_book" "H1" "H2" 300 "t1" false
    (by simp) (by decide)

/-! ## C9: temporal decay idempotence -/

/-- Re-sweeping an already-swept symptom row at the same instant rewrites the
identical values: the row is unchanged, it is never counted as resolved a
second time, and the reconfirm-due report is unchanged. -/
theorem sweepSymptomRow_idem (now : Time) (uid : String) (r : SymptomRow) :
    sweepSymptomRow now uid (sweepSymptomRow now uid r).1 =
      ((sweepSymptomRow now uid r).1, false, (sweepSymptomRow now uid r).2.2) := by
  obtain ⟨id, user, status, last?, due?, upd⟩ := r
  have hra : ("resolved_unconfirmed" : String) ≠ "active" := by decide
  unfold sweepSymptomRow
  by_cases hu : user ≠ uid
  · simp [hu]
  · cases last? with
    | none => simp [hu]
    | some last =>
      by_cases h7 : status = "active" ∧ AUTO_RESOLVE_SECONDS ≤ now - last
      · simp [hu, h7, hra]
      · by_cases h48 : status = "active" ∧ RECONFIRM_SECONDS ≤ now - last
        · have hn7 : ¬ AUTO_RESOLVE_SECONDS ≤ now - last := fun hle => h7 ⟨h48.1, hle⟩
          simp [hu, h48, hn7, h48.1, h48.2]
        · simp [hu, h7, h48]

/-- Re-sweeping an already-swept inference row at the same instant changes
nothing and counts nothing. -/
theorem sweepInferenceRow_idem (now : Time) (uid : String) (r : InferenceRow) :
    sweepInferenceRow now uid (sweepInferenceRow now uid r).1 =
      ((sweepInferenceRow now uid r).1, false) := by
  obtain ⟨id, user, status, exp, upd⟩ := r
  have hra : ("expired" : String) ≠ "active" := by decide
  unfold sweepInferenceRow
  by_cases hc : user = uid ∧ status = "active" ∧ exp ≤ now
  · simp [hc, hra, hc.1]
  · simp [hc]

/-- Re-sweeping an already-swept health signal row at the same instant
changes nothing and counts nothing. -/
theorem sweepSignalRow_idem (now : Time) (uid : String) (r : HealthSignalRow) :
    sweepSignalRow now uid (sweepSignalRow now uid r).1 =
      ((sweepSignalRow now uid r).1, false) := by
  obtain ⟨id, user, stale, after, upd⟩ := r
  unfold sweepSignalRow
  by_cases hc : user = uid ∧ stale = false ∧ after ≤ now
  · simp [hc, hc.1]
  · simp [hc]

/-- C9.  Running the temporal decay sweep twice at the same instant produces
on the second run exactly the state produced by the first run, and the second
summary counts no resolved symptom, no expired inference and no stale signal
(no double-counting). -/
theorem temporal_decay_idempotent (db : MemDB) (now : Time) (uid : String) :
    (temporalApply (temporalApply db now uid).2 now uid).2 = (temporalApply db now uid).2 ∧
    (temporalApply (temporalApply db now uid).2 now uid).1.resolved_unconfirmed_count = 0 ∧
    (temporalApply (temporalApply db now uid).2 now uid).1.inference_expired_count = 0 ∧
    (temporalApply (temporalApply db now uid).2 now uid).1.stale_health_signal_count = 0 := by
  unfold temporalApply
  simp only [List.map_map, List.countP_map, List.filterMap_map]
  have hsym : db.symptoms.map ((sweepSymptomRow now uid) ∘ (fun x => x.1) ∘ (sweepSymptomRow now uid))
      = db.symptoms.map (fun r => ((sweepSymptomRow now uid r).1, false,
          (sweepSymptomRow now uid r).2.2)) := by
    apply List.map_congr_left
    intro a _
    exact sweepSymptomRow_idem now uid a
  have hinf : db.inferences.map ((sweepInferenceRow now uid) ∘ (fun x => x.1) ∘ (sweepInferenceRow now uid))
      = db.inferences.map (fun r => ((sweepInferenceRow now uid r).1, false)) := by
    apply List.map_congr_left
    intro a _
    exact sweepInferenceRow_idem now uid a
  have hsig : db.signals.map ((sweepSignalRow now uid) ∘ (fun x => x.1) ∘ (sweepSignalRow now uid))
      = db.signals.map (fun r => ((sweepSignalRow now uid r).1, false)) := by
    apply List.map_congr_left
    intro a _
    exact sweepSignalRow_idem now uid a
  refine ⟨?_, ?_, ?_, ?_⟩
  · simp only [MemDB.mk.injEq]
    refine ⟨?_, ?_, ?_⟩
    · calc db.symptoms.map (fun x => ((sweepSymptomRow now uid) ((fun y => y.1) ((sweepSymptomRow now uid) x))).1)
          = (db.symptoms.map ((sweepSymptomRow now uid) ∘ (fun x => x.1) ∘ (sweepSymptomRow now uid))).map (fun x => x.1) := by
            simp [List.map_map]
        _ = db.symptoms.map (fun x => (sweepSymptomRow now uid x).1) := by
            rw [hsym]; simp [List.map_map]
    · calc db.inferences.map (fun x => ((sweepInferenceRow now uid) ((fun y => y.1) ((sweepInferenceRow now uid) x))).1)
          = (db.inferences.map ((sweepInferenceRow now uid) ∘ (fun x => x.1) ∘ (sweepInferenceRow now uid))).map (fun x => x.1) := by
            simp [List.map_map]
        _ = db.inferences.map (fun x => (sweepInferenceRow now uid x).1) := by
            rw [hinf]; simp [List.map_map]
    · calc db.signals.map (fun x => ((sweepSignalRow now uid) ((fun y => y.1) ((sweepSignalRow now uid) x))).1)
          = (db.signals.map ((sweepSignalRow now uid) ∘ (fun x => x.1) ∘ (sweepSignalRow now uid))).map (fun x => x.1) := by
            simp [List.map_map]
        _ = db.signals.map (fun x => (sweepSignalRow now uid x).1) := by
            rw [hsig]; simp [List.map_map]
  · have : db.symptoms.countP ((fun x => x.2.1) ∘ ((sweepSymptomRow now uid) ∘ (fun x => x.1) ∘ (sweepSymptomRow now uid)))
        = db.symptoms.countP (fun _ => false) := by
      apply List.countP_congr
      intro a _
      simp [Function.comp, sweepSymptomRow_idem now uid a]
    simpa [Function.comp] using this
  · have : db.inferences.countP ((fun x => x.2) ∘ ((sweepInferenceRow now uid) ∘ (fun x => x.1) ∘ (sweepInferenceRow now uid)))
        = db.inferences.countP (fun _ => false) := by
      apply List.countP_congr
      intro a _
      simp [Function.comp, sweepInferenceRow_idem now uid a]
    simpa [Function.comp] using this
  · have : db.signals.countP ((fun x => x.2) ∘ ((sweepSignalRow now uid) ∘ (fun x => x.1) ∘ (sweepSignalRow now uid)))
        = db.signals.countP (fun _ => false) := by
      apply List.countP_congr
      intro a _
      simp [Function.comp, sweepSignalRow_idem now uid a]
    simpa [Function.comp] using this

/-! ## Concrete fixtures used by witnesses and counterexamples -/

/-- A plain execution context. -/
def ctxFix : ExecutionContext :=
  { user_id := "u1", session_key := "s1", request_id := "r1" }

/-- A non-transactional tool whose handler reports success. -/
def toolFix : ToolDefinition :=
  { name := "lab_clinic_discovery",
    handler := fun _ _ => HandlerOut.returns { status? := some "succeeded" } }

/-- A sample outcome dict. -/
def outcomeFix : HookOutcome :=
  { status := "succeeded", data := [], errors := [], lifecycle := [] }

/-! ## C7: post-hook failures are not isolated -/

/-- `run_after` splits over list append: the suffix runs only if the whole
prefix completed. -/
theorem run_after_append {σ : Type} (l1 l2 : List (AfterHook σ)) (ctx : ExecutionContext)
    (tool : ToolDefinition) (payload : Payload) (outcome : HookOutcome) (s : σ) :
    run_after (l1 ++ l2) ctx tool payload outcome s =
      match run_after l1 ctx tool payload outcome s with
      | (Except.ok _, s1) => run_after l2 ctx tool payload outcome s1
      | (Except.error e, s1) => (Except.error e, s1) := by
  induction l1 generalizing s with
  | nil => simp [run_after]
  | cons h rest ih =>
    simp only [List.cons_append, run_after]
    cases h ctx tool payload outcome s with
    | error e => rfl
    | ok s' => exact ih s'

/-- C7 counterexample.  With two registered post-hooks of which the first
raises, `run_after` propagates the failure and the second hook is never
invoked: the counter it would increment stays 0 (running the second hook
alone does increment it). -/
theorem run_after_no_isolation_counterexample :
    run_after [fun _ _ _ _ _ => Except.error "boom",
               fun _ _ _ _ (n : Nat) => Except.ok (n + 1)]
        ctxFix toolFix [] outcomeFix 0 = (Except.error "boom", 0) ∧
    run_after [fun _ _ _ _ (n : Nat) => Except.ok (n + 1)]
        ctxFix toolFix [] outcomeFix 0 = (Except.ok (), 1) := by
  exact ⟨rfl, rfl⟩

/-- C7 (amended).  `run_after` invokes the post-hooks in registration order
with no short-circuit on the outcome value, but it does not isolate per-hook
failures: after any prefix of hooks that completes, a raising hook makes
`run_after` return that hook's error, and the remaining hooks are never
invoked (the result does not depend on them). -/
theorem run_after_propagates_hook_failure {σ : Type} (l1 l2 : List (AfterHook σ))
    (e : String) (ctx : ExecutionContext) (tool : ToolDefinition) (payload : Payload)
    (outcome : HookOutcome) (s s1 : σ)
    (h : run_after l1 ctx tool payload outcome s = (Except.ok (), s1)) :
    run_after (l1 ++ (fun _ _ _ _ _ => Except.error e) :: l2) ctx tool payload outcome s =
      (Except.error e, s1) := by
  rw [run_after_append, h]
  rfl

/-- Witness for C7's amended claim: a completing hook, then a raiser, then
another hook — the error propagates, the first hook's effect is kept and the
third hook never runs. -/
theorem run_after_propagates_hook_failure_witness :
    run_after [(fun _ _ _ _ (n : Nat) => Except.ok (n + 1)),
               (fun _ _ _ _ _ => Except.error "boom"),
               (fun _ _ _ _ (n : Nat) => Except.ok (n + 1))]
        ctxFix toolFix [] outcomeFix 0 = (Except.error "boom", 1) :=
  run_after_propagates_hook_failure [fun _ _ _ _ (n : Nat) => Except.ok (n + 1)]
    [fun _ _ _ _ (n : Nat) => Except.ok (n + 1)] "boom" ctxFix toolFix [] outcomeFix 0 1 rfl

/-! ## C1: terminal replay short-circuit -/

/-- C1.  When `start` dedups onto an existing record in a terminal status
(same user, idempotency key and replay bucket), `execute` returns the
recorded status and result data tagged `replayed=true` immediately: the
policy engine is not evaluated, no pre- or post-hook runs, the tool handler
is not invoked, no transition is attempted, and the machine state — in
particular the record — is completely unchanged. -/
theorem terminal_replay_short_circuit {σ : Type} (pe : PolicyEngine)
    (beforeHooks : List (BeforeHook σ)) (afterHooks : List (AfterHook σ))
    (tool : ToolDefinition) (ctx : ExecutionContext) (payload : Payload)
    (now : Time) (freshId : String) (st : ExecState σ) (r : ActionRow)
    (hfind : findByKey st.audit ctx.user_id (computeIdemKey ctx tool.name payload)
      (replayBucket now) = some r)
    (hterm : isTerminalStatus r.status = true) :
    executeFn pe beforeHooks afterHooks tool ctx payload now freshId st =
      (Except.ok { status := r.status,
                   data := dictSet (dictSet (r.result_json.getD []) "replayed" (JVal.bool true))
                     "idempotency_key" (JVal.str (computeIdemKey ctx tool.name payload)),
                   errors := [], lifecycle := r.lifecycle, action_id := some r.id },
       st, {}) := by
  unfold executeFn startForExecute lifecycleStart
  rw [hfind]
  simp [hterm]

/-- Policy engine as configured in `CarePilotApp.__init__`. -/
def peFix : PolicyEngine :=
  { allowlist := ["clinical_profile_get", "clinical_profile_upsert", "lab_clinic_discovery",
                  "appointment_book", "medical_purchase", "medication_refill_request",
                  "consent_token_issue"],
    transactional_tools := TRANSACTIONAL_TOOLS }

/-- A payload carrying a caller-supplied idempotency key. -/
def payloadReplayFix : Payload :=
  [("zip_or_geo", JVal.str "Pittsburgh"), ("idempotency_key", JVal.str "k1")]

/-- A terminal (`succeeded`) audit record for `payloadReplayFix`'s key. -/
def rowTermFix : ActionRow :=
  { id := "a1", user_id := "u1", session_key := "s1",
    action_type := "lab_clinic_discovery",
    payload_hash := canonical_payload_hash payloadReplayFix,
    payload_blob := canonicalJson payloadReplayFix, idempotency_key := "k1",
    replay_window_bucket := 0, consent_token := none, consent_token_present := false,
    status := "succeeded", lifecycle := ["planned", "executing", "succeeded"],
    result_json := some [("items", JVal.str "lab-list")], error_code := none,
    error_message := none, started_at := 0, finished_at := some 1,
    created_at := 0, updated_at := 1 }

/-- Witness for C1 at a concrete terminal record. -/
theorem terminal_replay_short_circuit_witness :
    executeFn peFix [] [] toolFix ctxFix payloadReplayFix 0 "fresh1"
        (⟨[rowTermFix], ()⟩ : ExecState Unit) =
      (Except.ok { status := rowTermFix.status,
                   data := dictSet (dictSet (rowTermFix.result_json.getD []) "replayed"
                       (JVal.bool true))
                     "idempotency_key" (JVal.str (computeIdemKey ctxFix toolFix.name payloadReplayFix)),
                   errors := [], lifecycle := rowTermFix.lifecycle,
                   action_id := some rowTermFix.id },
       ⟨[rowTermFix], ()⟩, {}) :=
  terminal_replay_short_circuit peFix [] [] toolFix ctxFix payloadReplayFix 0 "fresh1"
    ⟨[rowTermFix], ()⟩ rowTermFix (by rfl) (by rfl)

/-! ## C6: the emergency gate on transactional tools -/

/-- A transactional tool as registered in `main.py` (appointment booking). -/
def toolTransFix : ToolDefinition :=
  { name := "appointment_book", transactional := true,
    handler := fun _ _ => HandlerOut.returns { status? := some "succeeded" } }

/-- An emergency context without caller confirmation. -/
def ctxEmergUnconfirmed : ExecutionContext :=
  { user_id := "u1", session_key := "s1", request_id := "r1",
    emergency := true, user_confirmed := false }

/-- An emergency context with caller confirmation. -/
def ctxEmergConfirmed : ExecutionContext :=
  { user_id := "u1", session_key := "s1", request_id := "r1",
    emergency := true, user_confirmed := true }

/-- C6 counterexample.  An execute call on a transactional, allowlisted tool
with `ctx.emergency = true` but without caller confirmation is blocked with
error code `not_confirmed`, not `emergency_transaction_block`: the
confirmation gate fires before the policy engine is ever consulted. -/
theorem emergency_block_not_confirmed_counterexample :
    (executeFn peFix [before_tool_call 0] [after_tool_call 0] toolTransFix
        ctxEmergUnconfirmed [] 0 "id1" (⟨[], ⟨[], []⟩⟩ : ExecState CarePilotState)).1 =
      Except.ok { status := "blocked", data := [],
                  errors := [{ code := some "not_confirmed",
                               message := some "User confirmation required." }],
                  lifecycle := ["planned", "awaiting_confirmation", "blocked"],
                  action_id := some "id1" } ∧
    "not_confirmed" ≠ "emergency_transaction_block" :=
  ⟨rfl, by decide⟩

/-- C6 (amended).  For every execute call on a confirmed, allowlisted
transactional tool with `ctx.emergency = true` that does not dedup onto an
existing record, the action is blocked with code
`emergency_transaction_block`; the payload is arbitrary — in particular any
cross-user `target_user_id` and any consent token are irrelevant, because the
emergency rule precedes the cross-user rule inside `evaluate` — and no
pre-hook, post-hook or handler is ever invoked (`beforeRuns`, `afterRuns` and
`handlerCalls` all stay 0, so the block precedes the whole hook pipeline). -/
theorem emergency_blocks_confirmed_transactional {σ : Type} (pe : PolicyEngine)
    (beforeHooks : List (BeforeHook σ)) (afterHooks : List (AfterHook σ))
    (tool : ToolDefinition) (ctx : ExecutionContext) (payload : Payload)
    (now : Time) (freshId : String) (st : ExecState σ)
    (htr : tool.transactional = true)
    (hal : pe.allowlist.contains tool.name = true)
    (htt : pe.transactional_tools.contains tool.name = true)
    (hem : ctx.emergency = true)
    (huc : ctx.user_confirmed = true)
    (hnone : findByKey st.audit ctx.user_id (computeIdemKey ctx tool.name payload)
      (replayBucket now) = none)
    (hfresh : ∀ r ∈ st.audit, r.id ≠ freshId) :
    ∃ audit' : AuditStore,
      executeFn pe beforeHooks afterHooks tool ctx payload now freshId st =
        (Except.ok { status := "blocked", data := [],
                     errors := [{ code := some "emergency_transaction_block",
                                  message := some "Transactional actions are blocked in an emergency context." }],
                     lifecycle := ["planned", "awaiting_confirmation", "blocked"],
                     action_id := some freshId },
         ⟨audit', st.hookState⟩,
         { policyCalls := 1, beforeRuns := 0, handlerCalls := 0, afterRuns := 0,
           transitionCalls := ["awaiting_confirmation", "blocked"] }) := by
  set row0 := newActionRow now freshId ctx.user_id ctx.session_key tool.name
    (canonical_payload_hash payload) payload (computeIdemKey ctx tool.name payload)
    (consentTokenField payload) with hrow0
  have hfind0 : findById (st.audit ++ [row0]) freshId = some row0 :=
    findById_append_fresh st.audit row0 freshId rfl hfresh
  set row1 := applyTransitionRow now row0 "awaiting_confirmation" none none none with hrow1
  have ht1 : lifecycleTransition (st.audit ++ [row0]) now freshId "awaiting_confirmation"
      none none none =
      (Except.ok (row0.lifecycle ++ ["awaiting_confirmation"]),
       replaceById (st.audit ++ [row0]) freshId row1) :=
    lifecycleTransition_ok _ _ _ _ _ _ _ row0 hfind0
      (show "awaiting_confirmation" ∈ TRANSITIONS "planned" by decide)
  set audit1 := replaceById (st.audit ++ [row0]) freshId row1 with haudit1
  have hfind1 : findById audit1 freshId = some row1 :=
    findById_replaceById _ _ row0 row1 hfind0 rfl
  set row2 := applyTransitionRow now row1 "blocked" none none none with hrow2
  have ht2 : lifecycleTransition audit1 now freshId "blocked" none none none =
      (Except.ok (row1.lifecycle ++ ["blocked"]), replaceById audit1 freshId row2) :=
    lifecycleTransition_ok _ _ _ _ _ _ _ row1 hfind1
      (show "blocked" ∈ TRANSITIONS "awaiting_confirmation" by decide)
  refine ⟨replaceById audit1 freshId row2, ?_⟩
  unfold executeFn startForExecute lifecycleStart
  rw [hnone]
  simp only [htr, Bool.false_and, Bool.true_and, if_false, if_true, ite_true, ite_false]
  rw [ht1]
  simp only [huc, Bool.not_true, Bool.false_eq_true, if_false, ite_false]
  unfold execFromPolicy
  simp only [PolicyEngine.evaluate, hal, htt, hem, Bool.true_and, Bool.not_true,
    Bool.not_false, if_true, ite_true, Bool.false_eq_true, if_false, ite_false]
  simp only [or_true, if_true, ite_true]
  rw [ht2]
  simp [hrow1, hrow0, applyTransitionRow, newActionRow]

/-- Witness for C6's amended claim: a confirmed emergency booking with a
cross-user target in the payload is still blocked with
`emergency_transaction_block`. -/
theorem emergency_blocks_confirmed_transactional_witness :
    ∃ audit' : AuditStore,
      executeFn peFix [before_tool_call 0] [after_tool_call 0] toolTransFix ctxEmergConfirmed
          [("target_user_id", JVal.str "someone-else")] 0 "id1"
          (⟨[], ⟨[], []⟩⟩ : ExecState CarePilotState) =
        (Except.ok { status := "blocked", data := [],
                     errors := [{ code := some "emergency_transaction_block",
                                  message := some "Transactional actions are blocked in an emergency context." }],
                     lifecycle := ["planned", "awaiting_confirmation", "blocked"],
                     action_id := some "id1" },
         ⟨audit', ⟨[], []⟩⟩,
         { policyCalls := 1, beforeRuns := 0, handlerCalls := 0, afterRuns := 0,
           transitionCalls := ["awaiting_confirmation", "blocked"] }) :=
  emergency_blocks_confirmed_transactional peFix [before_tool_call 0] [after_tool_call 0]
    toolTransFix ctxEmergConfirmed [("target_user_id", JVal.str "someone-else")] 0 "id1"
    ⟨[], ⟨[], []⟩⟩ rfl rfl rfl rfl rfl rfl (by simp)

/-! ## Result-state normalization facts -/

/-- The normalized handler result state is never `executing`. -/
theorem normalizeResultState_ne_executing (s? : Option String) :
    normalizeResultState s? ≠ "executing" := by
  cases s? with
  | none => decide
  | some s =>
    simp only [normalizeResultState]
    by_cases h : RESULT_STATES.contains s
    · rw [if_pos h]
      intro heq
      subst heq
      exact absurd h (by decide)
    · rw [if_neg h]
      decide

/-- The normalized handler result state is always a legal exit from
`executing`. -/
theorem normalizeResultState_mem_executing (s? : Option String) :
    normalizeResultState s? ∈ TRANSITIONS "executing" := by
  cases s? with
  | none => decide
  | some s =>
    simp only [normalizeResultState]
    by_cases h : RESULT_STATES.contains s
    · rw [if_pos h]
      have hmem : s ∈ RESULT_STATES := by simpa using h
      simpa [TRANSITIONS, RESULT_STATES] using hmem
    · rw [if_neg h]
      decide

/-! ## C10: a non-terminal (in-flight) replay re-executes the handler -/

/-- C10.  When `start` dedups onto an existing record whose status is
in-flight (`executing` or `pending`) for a non-transactional tool, `execute`
does not return the stored record early: the policy engine is re-evaluated
and the pre-hooks re-run (once each, and given they allow), the transition to
`executing` is skipped (no transition call targets `executing`), and the tool
handler is invoked again — a duplicate submission of an in-flight action can
re-execute the handler. -/
theorem inflight_replay_reexecutes {σ : Type} (pe : PolicyEngine)
    (beforeHooks : List (BeforeHook σ)) (afterHooks : List (AfterHook σ))
    (tool : ToolDefinition) (ctx : ExecutionContext) (payload : Payload)
    (now : Time) (freshId : String) (st : ExecState σ) (r : ActionRow)
    (hfind : findByKey st.audit ctx.user_id (computeIdemKey ctx tool.name payload)
      (replayBucket now) = some r)
    (hstat : r.status = "executing" ∨ r.status = "pending")
    (htr : tool.transactional = false)
    (hpol : (pe.evaluate ctx tool payload).allowed = true)
    (hhook : (run_before beforeHooks ctx tool payload st.hookState).allowed = true) :
    (executeFn pe beforeHooks afterHooks tool ctx payload now freshId st).2.2.policyCalls = 1 ∧
    (executeFn pe beforeHooks afterHooks tool ctx payload now freshId st).2.2.beforeRuns = 1 ∧
    (executeFn pe beforeHooks afterHooks tool ctx payload now freshId st).2.2.handlerCalls = 1 ∧
    "executing" ∉ (executeFn pe beforeHooks afterHooks tool ctx payload now freshId st).2.2.transitionCalls := by
  have hterm : isTerminalStatus r.status = false := by
    rcases hstat with h | h <;> rw [h] <;> rfl
  have hcs : ¬(r.status = "planned" ∨ r.status = "awaiting_confirmation") := by
    rcases hstat with h | h <;> rw [h] <;> decide
  unfold executeFn startForExecute lifecycleStart
  rw [hfind]
  simp only [hterm, Bool.and_false, Bool.false_eq_true, if_false, ite_false, htr]
  unfold execFromPolicy
  simp only [hpol, hhook, Bool.not_true, Bool.false_eq_true, if_false, ite_false, hcs]
  cases hh : tool.handler ctx payload with
  | raises msg =>
    rcases hlt : lifecycleTransition st.audit now r.id "failed" none (some "tool_exception")
        (some msg) with ⟨elt, audit'⟩
    cases elt with
    | error e =>
      simp only [hlt]
      simp
    | ok lc' =>
      simp only [hlt]
      rcases hra : run_after afterHooks ctx tool payload
          ⟨"failed", [], [⟨some "tool_exception", some msg⟩], lc'⟩ st.hookState with ⟨era, hs'⟩
      cases era with
      | error e =>
        simp only [hra]
        simp
      | ok a =>
        simp only [hra]
        simp
  | returns out =>
    have hne : ("executing" : String) ≠ normalizeResultState out.status? :=
      Ne.symm (normalizeResultState_ne_executing out.status?)
    rcases hlt : lifecycleTransition st.audit now r.id (normalizeResultState out.status?)
        out.data? (toolErrorCode out) (toolErrorMessage out) with ⟨elt, audit'⟩
    cases elt with
    | error e =>
      simp only [hlt]
      simp [hne]
    | ok lc' =>
      simp only [hlt]
      rcases hra : run_after afterHooks ctx tool payload
          ⟨normalizeResultState out.status?, out.data?.getD [], out.errors?.getD [], lc'⟩
          st.hookState with ⟨era, hs'⟩
      cases era with
      | error e =>
        simp only [hra]
        simp [hne]
      | ok a =>
        simp only [hra]
        simp [hne]

/-- An in-flight (`executing`) audit record for `payloadReplayFix`'s key. -/
def rowExecFix : ActionRow :=
  { id := "a1", user_id := "u1", session_key := "s1",
    action_type := "lab_clinic_discovery",
    payload_hash := canonical_payload_hash payloadReplayFix,
    payload_blob := canonicalJson payloadReplayFix, idempotency_key := "k1",
    replay_window_bucket := 0, consent_token := none, consent_token_present := false,
    status := "executing", lifecycle := ["planned", "executing"],
    result_json := none, error_code := none, error_message := none,
    started_at := 0, finished_at := none, created_at := 0, updated_at := 0 }

/-- Witness for C10 at a concrete in-flight record. -/
theorem inflight_replay_reexecutes_witness :
    (executeFn peFix [] [] toolFix ctxFix payloadReplayFix 0 "fresh1"
        (⟨[rowExecFix], ()⟩ : ExecState Unit)).2.2.policyCalls = 1 ∧
    (executeFn peFix [] [] toolFix ctxFix payloadReplayFix 0 "fresh1"
        (⟨[rowExecFix], ()⟩ : ExecState Unit)).2.2.beforeRuns = 1 ∧
    (executeFn peFix [] [] toolFix ctxFix payloadReplayFix 0 "fresh1"
        (⟨[rowExecFix], ()⟩ : ExecState Unit)).2.2.handlerCalls = 1 ∧
    "executing" ∉ (executeFn peFix [] [] toolFix ctxFix payloadReplayFix 0 "fresh1"
        (⟨[rowExecFix], ()⟩ : ExecState Unit)).2.2.transitionCalls :=
  inflight_replay_reexecutes peFix [] [] toolFix ctxFix payloadReplayFix 0 "fresh1"
    ⟨[rowExecFix], ()⟩ rowExecFix rfl (Or.inl rfl) rfl rfl rfl

/-! ## C8: which payload feeds the stored `payload_hash` -/

/-- Sanitization drops exactly the `consent_token` and `payload_hash` keys,
leaving every other binding unchanged. -/
theorem pget_sanitize (p : Payload) (k : String)
    (h1 : k ≠ "consent_token") (h2 : k ≠ "payload_hash") :
    pget (sanitize_payload_for_hash p) k = pget p k := by
  induction p with
  | nil => rfl
  | cons kv rest ih =>
    simp only [sanitize_payload_for_hash, List.filter_cons] at *
    by_cases hc : kv.1 = "consent_token"
    · have hkv : kv.1 ≠ k := fun he => h1 (he ▸ hc)
      simp [pget, hc, hkv, ih, Ne.symm h1, Ne.symm h2]
    · by_cases hp : kv.1 = "payload_hash"
      · have hkv : kv.1 ≠ k := fun he => h2 (he ▸ hp)
        simp [pget, hc, hp, hkv, ih, Ne.symm h1, Ne.symm h2]
      · by_cases hk : kv.1 = k
        · simp [pget, hc, hp, hk, h1, h2]
        · simp [pget, hc, hp, hk, ih, h1, h2]

/-- The sanitized payload carries neither `consent_token` nor
`payload_hash`. -/
theorem pget_sanitize_none (p : Payload) :
    pget (sanitize_payload_for_hash p) "consent_token" = none ∧
    pget (sanitize_payload_for_hash p) "payload_hash" = none := by
  induction p with
  | nil => exact ⟨rfl, rfl⟩
  | cons kv rest ih =>
    simp only [sanitize_payload_for_hash, List.filter_cons] at *
    by_cases hc : kv.1 = "consent_token"
    · simpa [pget, hc] using ih
    · by_cases hp : kv.1 = "payload_hash"
      · simpa [pget, hc, hp] using ih
      · simpa [pget, hc, hp] using ih

/-- A fresh `execute` inserts the audit row under the generated id. -/
theorem startForExecute_fresh {σ : Type} (st : ExecState σ) (ctx : ExecutionContext)
    (tool : ToolDefinition) (payload : Payload) (now : Time) (freshId : String)
    (hnone : findByKey st.audit ctx.user_id (computeIdemKey ctx tool.name payload)
      (replayBucket now) = none)
    (hfresh : ∀ r ∈ st.audit, r.id ≠ freshId) :
    findById (startForExecute st ctx tool payload now freshId).2 freshId =
      some (newActionRow now freshId ctx.user_id ctx.session_key tool.name
        (canonical_payload_hash payload) payload (computeIdemKey ctx tool.name payload)
        (consentTokenField payload)) := by
  unfold startForExecute lifecycleStart
  rw [hnone]
  exact findById_append_fresh _ _ _ rfl hfresh

/-- A payload carrying a consent token next to its business fields. -/
def payloadConsentFix : Payload :=
  [("a", JVal.num 1), ("consent_token", JVal.str "ctk_x")]

/-- C8 counterexample.  The `payload_hash` stored on the action record by a
fresh `execute` is the canonical hash of the payload exactly as received —
not of the sanitized payload: for a payload carrying a `consent_token` the
stored hash differs from `_tool_params_hash`, and two payloads differing only
in the consent-token field receive different stored hashes (while their
sanitized hashes agree). -/
theorem stored_payload_hash_counterexample :
    ((startForExecute (⟨[], ()⟩ : ExecState Unit) ctxFix toolFix payloadConsentFix 0 "id1").2.map
        (fun r => r.payload_hash)) = [canonical_payload_hash payloadConsentFix] ∧
    canonical_payload_hash payloadConsentFix ≠ tool_params_hash payloadConsentFix ∧
    canonical_payload_hash payloadConsentFix ≠ canonical_payload_hash [("a", JVal.num 1)] ∧
    tool_params_hash payloadConsentFix = tool_params_hash [("a", JVal.num 1)] :=
  ⟨rfl, by decide, by decide, by decide⟩

/-- C8 (amended).  The `payload_hash` stored on the action record is the
canonical hash (stable key ordering) of the full request payload as received,
including any `consent_token`/`payload_hash` fields; the sanitized hash —
the canonical hash of the payload with exactly those two keys removed and all
other bindings untouched — is computed separately (`_tool_params_hash`) and
is used only by the consent pre-hook for token binding. -/
theorem stored_payload_hash_full_payload :
    (∀ (σ : Type) (st : ExecState σ) (ctx : ExecutionContext) (tool : ToolDefinition)
        (payload : Payload) (now : Time) (freshId : String),
      findByKey st.audit ctx.user_id (computeIdemKey ctx tool.name payload)
        (replayBucket now) = none →
      (∀ r ∈ st.audit, r.id ≠ freshId) →
      ((startForExecute st ctx tool payload now freshId).2.map (fun r => r.payload_hash)) =
        st.audit.map (fun r => r.payload_hash) ++ [canonical_payload_hash payload]) ∧
    (∀ p : Payload, tool_params_hash p = canonical_payload_hash (sanitize_payload_for_hash p)) ∧
    (∀ (p : Payload) (k : String), k ≠ "consent_token" → k ≠ "payload_hash" →
      pget (sanitize_payload_for_hash p) k = pget p k) ∧
    (∀ p : Payload, pget (sanitize_payload_for_hash p) "consent_token" = none ∧
      pget (sanitize_payload_for_hash p) "payload_hash" = none) := by
  refine ⟨?_, fun _ => rfl, pget_sanitize, pget_sanitize_none⟩
  intro σ st ctx tool payload now freshId hnone _
  unfold startForExecute lifecycleStart
  rw [hnone]
  simp [newActionRow]

/-- Witness for C8's amended claim at `payloadConsentFix`. -/
theorem stored_payload_hash_full_payload_witness :
    ((startForExecute (⟨[], ()⟩ : ExecState Unit) ctxFix toolFix payloadConsentFix 0 "id2").2.map
        (fun r => r.payload_hash)) = [canonical_payload_hash payloadConsentFix] ∧
    pget (sanitize_payload_for_hash payloadConsentFix) "a" = pget payloadConsentFix "a" ∧
    pget (sanitize_payload_for_hash payloadConsentFix) "consent_token" = none :=
  ⟨stored_payload_hash_full_payload.1 Unit ⟨[], ()⟩ ctxFix toolFix payloadConsentFix 0 "id2"
      rfl (by simp),
   stored_payload_hash_full_payload.2.2.1 payloadConsentFix "a" (by decide) (by decide),
   (stored_payload_hash_full_payload.2.2.2 payloadConsentFix).1⟩

/-! ## C5: single-use consent tokens -/

/-- Marking a token used rewrites exactly its `used_at` stamp as seen by
lookup. -/
theorem get_consent_token_mark (toks : ConsentStore) (t : String) (now : Time) :
    get_consent_token (mark_consent_token_used toks t now) t =
      (get_consent_token toks t).map (fun r => { r with used_at := some now }) := by
  induction toks with
  | nil => rfl
  | cons r rest ih =>
    by_cases hr : r.token = t
    · simp [get_consent_token, mark_consent_token_used, hr]
    · simp [get_consent_token, mark_consent_token_used, hr, ih]

/-- Validation succeeds (read-only) on a matching, unused, unexpired token. -/
theorem validate_consent_token_ok (toks : ConsentStore) (now : Time) (u a h tok : String)
    (trow : ConsentTokenRow) (hget : get_consent_token toks tok = some trow)
    (hu : trow.user_id = u) (ha : trow.action_type = a) (hp : trow.payload_hash = h)
    (hused : trow.used_at = none) (hexp : now < trow.expires_at) :
    validate_consent_token toks now u a h tok false = ((true, "ok"), toks) := by
  unfold validate_consent_token
  rw [hget]
  simp [hu, ha, hp, hused, not_le.mpr hexp]

/-- Validation of a matching but already-used token fails with the
already-used reason and leaves the store untouched. -/
theorem validate_consent_token_used (toks : ConsentStore) (now : Time) (u a h tok : String)
    (trow : ConsentTokenRow) (t0 : Time) (c : Bool)
    (hget : get_consent_token toks tok = some trow)
    (hu : trow.user_id = u) (ha : trow.action_type = a) (hp : trow.payload_hash = h)
    (hused : trow.used_at = some t0) :
    validate_consent_token toks now u a h tok c =
      ((false, "Consent token already used."), toks) := by
  unfold validate_consent_token
  rw [hget]
  simp [hu, ha, hp, hused]

/-- The consent pre-hook allows a transactional call in a non-emergency
context carrying a valid, unused, unexpired token bound to the sanitized
payload hash. -/
theorem before_tool_call_allows (now : Time) (ctx : ExecutionContext) (tool : ToolDefinition)
    (payload : Payload) (s : CarePilotState) (tok : String) (trow : ConsentTokenRow)
    (htool : TRANSACTIONAL_TOOLS.contains tool.name = true)
    (hem : ctx.emergency = false)
    (htok : pgetStr payload "consent_token" = some tok)
    (hne : tok ≠ "")
    (hsup : ∀ v, pget payload "payload_hash" = some v → v ≠ JVal.null →
      pyStr v = tool_params_hash payload)
    (hget : get_consent_token s.tokens tok = some trow)
    (hu : trow.user_id = ctx.user_id) (ha : trow.action_type = tool.name)
    (hp : trow.payload_hash = tool_params_hash payload)
    (hused : trow.used_at = none) (hexp : now < trow.expires_at) :
    before_tool_call now ctx tool payload s = { allowed := true } := by
  unfold before_tool_call
  have hval := validate_consent_token_ok s.tokens now ctx.user_id tool.name
    (tool_params_hash payload) tok trow hget hu ha hp hused hexp
  simp only [htool, hem, htok, hval, Bool.false_eq_true, if_false, ite_false, if_true, ite_true]
  cases hph : pget payload "payload_hash" with
  | none => simp [hne, hval]
  | some v =>
    cases v with
    | null => simp [hne, hval]
    | str sv =>
      have := hsup (JVal.str sv) hph (by simp)
      simp [hne, hval, this]
    | num n =>
      have := hsup (JVal.num n) hph (by simp)
      simp [hne, hval, this]
    | bool b =>
      have := hsup (JVal.bool b) hph (by simp)
      simp [hne, hval, this]

/-- The consent pre-hook rejects a transactional call whose token has already
been consumed, with the already-used reason. -/
theorem before_tool_call_denies_used (now : Time) (ctx : ExecutionContext)
    (tool : ToolDefinition) (payload : Payload) (s : CarePilotState) (tok : String)
    (trow : ConsentTokenRow) (t0 : Time)
    (htool : TRANSACTIONAL_TOOLS.contains tool.name = true)
    (hem : ctx.emergency = false)
    (htok : pgetStr payload "consent_token" = some tok)
    (hne : tok ≠ "")
    (hsup : ∀ v, pget payload "payload_hash" = some v → v ≠ JVal.null →
      pyStr v = tool_params_hash payload)
    (hget : get_consent_token s.tokens tok = some trow)
    (hu : trow.user_id = ctx.user_id) (ha : trow.action_type = tool.name)
    (hp : trow.payload_hash = tool_params_hash payload)
    (hused : trow.used_at = some t0) :
    before_tool_call now ctx tool payload s =
      { allowed := false, code := "invalid_consent_token",
        message := "Consent token already used." } := by
  unfold before_tool_call
  have hval := validate_consent_token_used s.tokens now ctx.user_id tool.name
    (tool_params_hash payload) tok trow t0 false hget hu ha hp hused
  simp only [htool, hem, htok, hval, Bool.false_eq_true, if_false, ite_false, if_true, ite_true]
  cases hph : pget payload "payload_hash" with
  | none => simp [hne, hval]
  | some v =>
    cases v with
    | null => simp [hne, hval]
    | str sv =>
      have := hsup (JVal.str sv) hph (by simp)
      simp [hne, hval, this]
    | num n =>
      have := hsup (JVal.num n) hph (by simp)
      simp [hne, hval, this]
    | bool b =>
      have := hsup (JVal.bool b) hph (by simp)
      simp [hne, hval, this]

/-- The effect of `_after_tool_call` on a transactional call carrying a
token: the policy event is always appended, and the token is marked used
exactly when the outcome status is `succeeded` or `partial`. -/
theorem after_tool_call_run (now : Time) (ctx : ExecutionContext) (tool : ToolDefinition)
    (payload : Payload) (outcome : HookOutcome) (s : CarePilotState) (tok : String)
    (htool : TRANSACTIONAL_TOOLS.contains tool.name = true)
    (htok : pgetStr payload "consent_token" = some tok)
    (hne : tok ≠ "") :
    after_tool_call now ctx tool payload outcome s =
      Except.ok { tokens := (if outcome.status = "succeeded" ∨ outcome.status = "partial"
                    then mark_consent_token_used s.tokens tok now else s.tokens),
                  events := s.events ++
                    [{ user_id := ctx.user_id, session_key := ctx.session_key,
                       event_type := "tool_outcome", tool_name := tool.name,
                       outcome_status := outcome.status, outcome_errors := outcome.errors,
                       outcome_action_id := none }] } := by
  unfold after_tool_call
  have hmem : tool.name ∈ TRANSACTIONAL_TOOLS := by simpa using htool
  by_cases hs : outcome.status = "succeeded" ∨ outcome.status = "partial"
  · have hb : (outcome.status == "succeeded" || outcome.status == "partial") = true := by
      rcases hs with h | h <;> simp [h]
    simp [htool, hmem, htok, hne, hb, hs]
  · have hb : (outcome.status == "succeeded" || outcome.status == "partial") = false := by
      rcases not_or.mp hs with ⟨h1, h2⟩
      simp [h1, h2]
    simp [htool, hmem, htok, hne, hb, hs]

/-- The full `execute` walk of a fresh, confirmed, non-emergency transactional
call whose consent token validates and whose handler returns: the token ends
up marked used exactly when the normalized handler status is `succeeded` or
`partial`. -/
theorem consent_marked_iff_success (pe : PolicyEngine) (ctx : ExecutionContext)
    (tool : ToolDefinition) (payload : Payload) (now : Time) (freshId : String)
    (st : ExecState CarePilotState) (tok : String) (trow : ConsentTokenRow) (out : ToolOutput)
    (htr : tool.transactional = true)
    (htool : TRANSACTIONAL_TOOLS.contains tool.name = true)
    (hal : pe.allowlist.contains tool.name = true)
    (hem : ctx.emergency = false)
    (huc : ctx.user_confirmed = true)
    (hcross : truthy (pget payload "target_user_id") = false)
    (hnone : findByKey st.audit ctx.user_id (computeIdemKey ctx tool.name payload)
      (replayBucket now) = none)
    (hfresh : ∀ r ∈ st.audit, r.id ≠ freshId)
    (htok : pgetStr payload "consent_token" = some tok)
    (hne : tok ≠ "")
    (hsup : ∀ v, pget payload "payload_hash" = some v → v ≠ JVal.null →
      pyStr v = tool_params_hash payload)
    (hget : get_consent_token st.hookState.tokens tok = some trow)
    (hu : trow.user_id = ctx.user_id) (ha : trow.action_type = tool.name)
    (hp : trow.payload_hash = tool_params_hash payload)
    (hused : trow.used_at = none) (hexp : now < trow.expires_at)
    (hh : tool.handler ctx payload = HandlerOut.returns out) :
    get_consent_token
        (executeFn pe [before_tool_call now] [after_tool_call now] tool ctx payload now freshId
          st).2.1.hookState.tokens tok =
      some { trow with used_at :=
        (if normalizeResultState out.status? = "succeeded" ∨
            normalizeResultState out.status? = "partial" then some now else none) } ∧
    (∃ res : ToolExecutionResult,
      (executeFn pe [before_tool_call now] [after_tool_call now] tool ctx payload now freshId
        st).1 = Except.ok res ∧ res.status = normalizeResultState out.status?) := by
  set row0 := newActionRow now freshId ctx.user_id ctx.session_key tool.name
    (canonical_payload_hash payload) payload (computeIdemKey ctx tool.name payload)
    (consentTokenField payload) with hrow0
  have hfind0 : findById (st.audit ++ [row0]) freshId = some row0 :=
    findById_append_fresh st.audit row0 freshId rfl hfresh
  set row1 := applyTransitionRow now row0 "awaiting_confirmation" none none none with hrow1
  have ht1 : lifecycleTransition (st.audit ++ [row0]) now freshId "awaiting_confirmation"
      none none none =
      (Except.ok (row0.lifecycle ++ ["awaiting_confirmation"]),
       replaceById (st.audit ++ [row0]) freshId row1) :=
    lifecycleTransition_ok _ _ _ _ _ _ _ row0 hfind0
      (show "awaiting_confirmation" ∈ TRANSITIONS "planned" by decide)
  set audit1 := replaceById (st.audit ++ [row0]) freshId row1 with haudit1
  have hfind1 : findById audit1 freshId = some row1 :=
    findById_replaceById _ _ row0 row1 hfind0 rfl
  set row2 := applyTransitionRow now row1 "executing" none none none with hrow2
  have ht2 : lifecycleTransition audit1 now freshId "executing" none none none =
      (Except.ok (row1.lifecycle ++ ["executing"]), replaceById audit1 freshId row2) :=
    lifecycleTransition_ok _ _ _ _ _ _ _ row1 hfind1
      (show "executing" ∈ TRANSITIONS "awaiting_confirmation" by decide)
  set audit2 := replaceById audit1 freshId row2 with haudit2
  have hfind2 : findById audit2 freshId = some row2 :=
    findById_replaceById _ _ row1 row2 hfind1 rfl
  set rstate := normalizeResultState out.status? with hrstate
  set row3 := applyTransitionRow now row2 rstate out.data? (toolErrorCode out)
    (toolErrorMessage out) with hrow3
  have ht3 : lifecycleTransition audit2 now freshId rstate out.data? (toolErrorCode out)
      (toolErrorMessage out) =
      (Except.ok (row2.lifecycle ++ [rstate]), replaceById audit2 freshId row3) :=
    lifecycleTransition_ok _ _ _ _ _ _ _ row2 hfind2
      (show rstate ∈ TRANSITIONS "executing" from normalizeResultState_mem_executing out.status?)
  have hpol : pe.evaluate ctx tool payload =
      { allowed := true, code := "ok", message := "allowed" } := by
    have halm : tool.name ∈ pe.allowlist := by simpa using hal
    unfold PolicyEngine.evaluate
    simp [hal, halm, hem, hcross]
  have hbefore := before_tool_call_allows now ctx tool payload st.hookState tok trow htool hem
    htok hne hsup hget hu ha hp hused hexp
  have hrb : run_before [before_tool_call now] ctx tool payload st.hookState =
      { allowed := true } := by
    simp [run_before, hbefore]
  have hafter := after_tool_call_run now ctx tool payload
    ⟨rstate, out.data?.getD [], out.errors?.getD [], row2.lifecycle ++ [rstate]⟩
    st.hookState tok htool htok hne
  have hra : run_after [after_tool_call now] ctx tool payload
      ⟨rstate, out.data?.getD [], out.errors?.getD [], row2.lifecycle ++ [rstate]⟩
      st.hookState =
      (Except.ok (),
       { tokens := (if rstate = "succeeded" ∨ rstate = "partial"
            then mark_consent_token_used st.hookState.tokens tok now else st.hookState.tokens),
         events := st.hookState.events ++
           [{ user_id := ctx.user_id, session_key := ctx.session_key,
              event_type := "tool_outcome", tool_name := tool.name,
              outcome_status := rstate, outcome_errors := out.errors?.getD [],
              outcome_action_id := none }] }) := by
    simp only [run_after, hafter]
  unfold executeFn startForExecute lifecycleStart
  rw [hnone]
  simp only [htr, if_true, ite_true, Bool.false_eq_true, if_false, ite_false, Bool.and_false]
  rw [ht1]
  simp only [huc, Bool.not_true, Bool.false_eq_true, if_false, ite_false]
  unfold execFromPolicy
  simp only [hpol, hrb, Bool.not_true, Bool.false_eq_true, if_false, ite_false, if_true,
    ite_true, or_true, true_or, eq_self_iff_true]
  rw [ht2]
  simp only [hh]
  rw [ht3]
  simp only [Bool.false_and, Bool.false_eq_true, if_false, ite_false, ← hrstate]
  simp only [hra]
  constructor
  · by_cases hP : rstate = "succeeded" ∨ rstate = "partial"
    · simp [hP, get_consent_token_mark, hget]
    · simp [hP, hget, ← hused]
  · exact ⟨_, rfl, rfl⟩

/-- The full `execute` walk of a fresh, confirmed, non-emergency transactional
call whose token has already been consumed: the pre-hook vetoes with the
already-used reason, the handler never runs, and the token store is
unchanged. -/
theorem consent_reuse_blocked (pe : PolicyEngine) (ctx : ExecutionContext)
    (tool : ToolDefinition) (payload : Payload) (now : Time) (freshId : String)
    (st : ExecState CarePilotState) (tok : String) (trow : ConsentTokenRow) (t0 : Time)
    (htr : tool.transactional = true)
    (htool : TRANSACTIONAL_TOOLS.contains tool.name = true)
    (hal : pe.allowlist.contains tool.name = true)
    (hem : ctx.emergency = false)
    (huc : ctx.user_confirmed = true)
    (hcross : truthy (pget payload "target_user_id") = false)
    (hnone : findByKey st.audit ctx.user_id (computeIdemKey ctx tool.name payload)
      (replayBucket now) = none)
    (hfresh : ∀ r ∈ st.audit, r.id ≠ freshId)
    (htok : pgetStr payload "consent_token" = some tok)
    (hne : tok ≠ "")
    (hsup : ∀ v, pget payload "payload_hash" = some v → v ≠ JVal.null →
      pyStr v = tool_params_hash payload)
    (hget : get_consent_token st.hookState.tokens tok = some trow)
    (hu : trow.user_id = ctx.user_id) (ha : trow.action_type = tool.name)
    (hp : trow.payload_hash = tool_params_hash payload)
    (hused : trow.used_at = some t0) :
    ∃ (audit' : AuditStore) (ev : List PolicyEvent),
      executeFn pe [before_tool_call now] [after_tool_call now] tool ctx payload now freshId st =
        (Except.ok { status := "blocked", data := [],
                     errors := [{ code := some "invalid_consent_token",
                                  message := some "Consent token already used." }],
                     lifecycle := ["planned", "awaiting_confirmation", "blocked"],
                     action_id := some freshId },
         ⟨audit', ⟨st.hookState.tokens, ev⟩⟩,
         { policyCalls := 1, beforeRuns := 1, handlerCalls := 0, afterRuns := 1,
           transitionCalls := ["awaiting_confirmation", "blocked"] }) := by
  set row0 := newActionRow now freshId ctx.user_id ctx.session_key tool.name
    (canonical_payload_hash payload) payload (computeIdemKey ctx tool.name payload)
    (consentTokenField payload) with hrow0
  have hfind0 : findById (st.audit ++ [row0]) freshId = some row0 :=
    findById_append_fresh st.audit row0 freshId rfl hfresh
  set row1 := applyTransitionRow now row0 "awaiting_confirmation" none none none with hrow1
  have ht1 : lifecycleTransition (st.audit ++ [row0]) now freshId "awaiting_confirmation"
      none none none =
      (Except.ok (row0.lifecycle ++ ["awaiting_confirmation"]),
       replaceById (st.audit ++ [row0]) freshId row1) :=
    lifecycleTransition_ok _ _ _ _ _ _ _ row0 hfind0
      (show "awaiting_confirmation" ∈ TRANSITIONS "planned" by decide)
  set audit1 := replaceById (st.audit ++ [row0]) freshId row1 with haudit1
  have hfind1 : findById audit1 freshId = some row1 :=
    findById_replaceById _ _ row0 row1 hfind0 rfl
  set row2 := applyTransitionRow now row1 "blocked" none none none with hrow2
  have ht2 : lifecycleTransition audit1 now freshId "blocked" none none none =
      (Except.ok (row1.lifecycle ++ ["blocked"]), replaceById audit1 freshId row2) :=
    lifecycleTransition_ok _ _ _ _ _ _ _ row1 hfind1
      (show "blocked" ∈ TRANSITIONS "awaiting_confirmation" by decide)
  have hpol : pe.evaluate ctx tool payload =
      { allowed := true, code := "ok", message := "allowed" } := by
    have halm : tool.name ∈ pe.allowlist := by simpa using hal
    unfold PolicyEngine.evaluate
    simp [hal, halm, hem, hcross]
  have hbefore := before_tool_call_denies_used now ctx tool payload st.hookState tok trow t0
    htool hem htok hne hsup hget hu ha hp hused
  have hrb : run_before [before_tool_call now] ctx tool payload st.hookState =
      { allowed := false, code := "invalid_consent_token",
        message := "Consent token already used." } := by
    simp [run_before, hbefore]
  have hafter := after_tool_call_run now ctx tool payload
    ⟨"blocked", [], [⟨some "invalid_consent_token", some "Consent token already used."⟩],
      row1.lifecycle ++ ["blocked"]⟩ st.hookState tok htool htok hne
  have hra : run_after [after_tool_call now] ctx tool payload
      ⟨"blocked", [], [⟨some "invalid_consent_token", some "Consent token already used."⟩],
        row1.lifecycle ++ ["blocked"]⟩ st.hookState =
      (Except.ok (),
       { tokens := st.hookState.tokens,
         events := st.hookState.events ++
           [{ user_id := ctx.user_id, session_key := ctx.session_key,
              event_type := "tool_outcome", tool_name := tool.name,
              outcome_status := "blocked",
              outcome_errors := [⟨some "invalid_consent_token",
                some "Consent token already used."⟩],
              outcome_action_id := none }] }) := by
    rw [run_after, hafter]
    simp [run_after]
  refine ⟨replaceById audit1 freshId row2,
    st.hookState.events ++ [⟨ctx.user_id, ctx.session_key, "tool_outcome", tool.name, "blocked",
      [⟨some "invalid_consent_token", some "Consent token already used."⟩], none⟩], ?_⟩
  unfold executeFn startForExecute lifecycleStart
  rw [hnone]
  simp only [htr, if_true, ite_true, Bool.false_eq_true, if_false, ite_false, Bool.and_false]
  rw [ht1]
  simp only [huc, Bool.not_true, Bool.false_eq_true, if_false, ite_false]
  unfold execFromPolicy
  simp only [hpol, hrb, Bool.not_true, Bool.not_false, Bool.false_eq_true, if_false,
    ite_false, if_true, ite_true, or_true, true_or, eq_self_iff_true]
  rw [ht2]
  simp only [hra]
  simp [hrow1, hrow0, applyTransitionRow, newActionRow]

/-- C5.  A consent token presented with a transactional action is marked used
exactly when the action's outcome status is `succeeded` or `partial` —
`pending`, `blocked`, `failed` and `expired` outcomes leave it unused and
valid for retry (first conjunct: the stored `used_at` equals `some now`
precisely under a succeeded/partial normalized handler status); and once a
token has been marked used, a subsequent execute attempt with it cannot pass
the consent pre-hook: it is blocked with the already-used reason, the handler
is never invoked, and the token store is unchanged (second conjunct). -/
theorem consent_token_single_use :
    (∀ (pe : PolicyEngine) (ctx : ExecutionContext) (tool : ToolDefinition) (payload : Payload)
        (now : Time) (freshId : String) (st : ExecState CarePilotState) (tok : String)
        (trow : ConsentTokenRow) (out : ToolOutput),
      tool.transactional = true →
      TRANSACTIONAL_TOOLS.contains tool.name = true →
      pe.allowlist.contains tool.name = true →
      ctx.emergency = false →
      ctx.user_confirmed = true →
      truthy (pget payload "target_user_id") = false →
      findByKey st.audit ctx.user_id (computeIdemKey ctx tool.name payload)
        (replayBucket now) = none →
      (∀ r ∈ st.audit, r.id ≠ freshId) →
      pgetStr payload "consent_token" = some tok →
      tok ≠ "" →
      (∀ v, pget payload "payload_hash" = some v → v ≠ JVal.null →
        pyStr v = tool_params_hash payload) →
      get_consent_token st.hookState.tokens tok = some trow →
      trow.user_id = ctx.user_id →
      trow.action_type = tool.name →
      trow.payload_hash = tool_params_hash payload →
      trow.used_at = none →
      now < trow.expires_at →
      tool.handler ctx payload = HandlerOut.returns out →
      (get_consent_token
          (executeFn pe [before_tool_call now] [after_tool_call now] tool ctx payload now
            freshId st).2.1.hookState.tokens tok =
        some { trow with used_at :=
          (if normalizeResultState out.status? = "succeeded" ∨
              normalizeResultState out.status? = "partial" then some now else none) } ∧
       ∃ res : ToolExecutionResult,
        (executeFn pe [before_tool_call now] [after_tool_call now] tool ctx payload now
          freshId st).1 = Except.ok res ∧ res.status = normalizeResultState out.status?)) ∧
    (∀ (pe : PolicyEngine) (ctx : ExecutionContext) (tool : ToolDefinition) (payload : Payload)
        (now : Time) (freshId : String) (st : ExecState CarePilotState) (tok : String)
        (trow : ConsentTokenRow) (t0 : Time),
      tool.transactional = true →
      TRANSACTIONAL_TOOLS.contains tool.name = true →
      pe.allowlist.contains tool.name = true →
      ctx.emergency = false →
      ctx.user_confirmed = true →
      truthy (pget payload "target_user_id") = false →
      findByKey st.audit ctx.user_id (computeIdemKey ctx tool.name payload)
        (replayBucket now) = none →
      (∀ r ∈ st.audit, r.id ≠ freshId) →
      pgetStr payload "consent_token" = some tok →
      tok ≠ "" →
      (∀ v, pget payload "payload_hash" = some v → v ≠ JVal.null →
        pyStr v = tool_params_hash payload) →
      get_consent_token st.hookState.tokens tok = some trow →
      trow.user_id = ctx.user_id →
      trow.action_type = tool.name →
      trow.payload_hash = tool_params_hash payload →
      trow.used_at = some t0 →
      ∃ (audit' : AuditStore) (ev : List PolicyEvent),
        executeFn pe [before_tool_call now] [after_tool_call now] tool ctx payload now
            freshId st =
          (Except.ok { status := "blocked", data := [],
                       errors := [{ code := some "invalid_consent_token",
                                    message := some "Consent token already used." }],
                       lifecycle := ["planned", "awaiting_confirmation", "blocked"],
                       action_id := some freshId },
           ⟨audit', ⟨st.hookState.tokens, ev⟩⟩,
           { policyCalls := 1, beforeRuns := 1, handlerCalls := 0, afterRuns := 1,
             transitionCalls := ["awaiting_confirmation", "blocked"] })) :=
  ⟨consent_marked_iff_success, consent_reuse_blocked⟩

/-- The business payload of a booking request. -/
def payloadBookBase : Payload :=
  [("provider_name", JVal.str "Care Clinic"), ("idempotency_key", JVal.str "kb1")]

/-- The booking payload as sent to `execute`: business fields plus the consent
token and the sanitized payload hash. -/
def payloadBookFix : Payload :=
  payloadBookBase ++ [("consent_token", JVal.str "ctk_1"),
    ("payload_hash", JVal.str (canonical_payload_hash payloadBookBase))]

/-- A valid, unused token bound to `payloadBookFix`'s sanitized hash. -/
def trowFix : ConsentTokenRow :=
  { token := "ctk_1", user_id := "u1", action_type := "appointment_book",
    payload_hash := tool_params_hash payloadBookFix, issued_at := 0, expires_at := 300,
    used_at := none }

/-- The same token after consumption. -/
def trowUsedFix : ConsentTokenRow := { trowFix with used_at := some 1 }

/-- A confirmed, non-emergency context. -/
def ctxConfirmed : ExecutionContext :=
  { user_id := "u1", session_key := "s1", request_id := "r1", user_confirmed := true }

/-- Witness for C5: a successful booking consumes the token (`used_at`
stamped), and with the consumed token a second execute attempt is blocked
with the already-used reason without invoking the handler. -/
theorem consent_token_single_use_witness :
    (get_consent_token
        (executeFn peFix [before_tool_call 0] [after_tool_call 0] toolTransFix ctxConfirmed
          payloadBookFix 0 "idA"
          (⟨[], ⟨[trowFix], []⟩⟩ : ExecState CarePilotState)).2.1.hookState.tokens "ctk_1" =
      some { trowFix with used_at :=
        (if normalizeResultState (some "succeeded") = "succeeded" ∨
            normalizeResultState (some "succeeded") = "partial" then some 0 else none) } ∧
     ∃ res : ToolExecutionResult,
      (executeFn peFix [before_tool_call 0] [after_tool_call 0] toolTransFix ctxConfirmed
        payloadBookFix 0 "idA" (⟨[], ⟨[trowFix], []⟩⟩ : ExecState CarePilotState)).1 =
        Except.ok res ∧ res.status = normalizeResultState (some "succeeded")) ∧
    (∃ (audit' : AuditStore) (ev : List PolicyEvent),
      executeFn peFix [before_tool_call 0] [after_tool_call 0] toolTransFix ctxConfirmed
          payloadBookFix 0 "idB" (⟨[], ⟨[trowUsedFix], []⟩⟩ : ExecState CarePilotState) =
        (Except.ok { status := "blocked", data := [],
                     errors := [{ code := some "invalid_consent_token",
                                  message := some "Consent token already used." }],
                     lifecycle := ["planned", "awaiting_confirmation", "blocked"],
                     action_id := some "idB" },
         ⟨audit', ⟨[trowUsedFix], ev⟩⟩,
         { policyCalls := 1, beforeRuns := 1, handlerCalls := 0, afterRuns := 1,
           transitionCalls := ["awaiting_confirmation", "blocked"] })) := by
  have hsup : ∀ v, pget payloadBookFix "payload_hash" = some v → v ≠ JVal.null →
      pyStr v = tool_params_hash payloadBookFix := by
    intro v hv _
    have h0 : pget payloadBookFix "payload_hash" =
        some (JVal.str (canonical_payload_hash payloadBookBase)) := rfl
    rw [h0] at hv
    rw [← Option.some.inj hv]
    rfl
  constructor
  · exact consent_token_single_use.1 peFix ctxConfirmed toolTransFix payloadBookFix 0 "idA"
      ⟨[], ⟨[trowFix], []⟩⟩ "ctk_1" trowFix { status? := some "succeeded" }
      rfl rfl rfl rfl rfl rfl rfl (by simp) rfl (by decide) hsup rfl rfl rfl rfl rfl
      (by decide) rfl
  · exact consent_token_single_use.2 peFix ctxConfirmed toolTransFix payloadBookFix 0 "idB"
      ⟨[], ⟨[trowUsedFix], []⟩⟩ "ctk_1" trowUsedFix 1
      rfl rfl rfl rfl rfl rfl rfl (by simp) rfl (by decide) hsup rfl rfl rfl rfl rfl

end CarePilot
